import Mathlib

/-!
Verification of the Sentinel decision-and-intervention engine.

This file gives a shallow embedding, in Lean 4, of the parts of the
Sentinel source that the verified properties talk about:

* `app/services/judge.py`   — `JudgeService.evaluate` and its helpers,
* `app/services/scheduler.py` — `ScheduleService.is_active` / `pick_active_window`,
* `app/services/sponsorblock.py` — segment fetching, merging, and skipping,
* `app/services/blocklists.py` — `append_entry` / `remove_entry`,
* `app/main.py` — `RuntimeState.process_lounge_event` and the safe-fallback
  selection (`_play_safe_from_queue`, `_play_safe_from_history`).

Conventions of the embedding:

* Python dicts keyed by ids become Lean functions into `Option`.
* Machine clock readings (`time.monotonic()`) and wall times are passed in
  as explicit rational parameters.
* Network and database effects are passed in as oracle fields of an
  environment record; what the code does with their results is modelled
  faithfully, statement by statement.
* Python float arithmetic is modelled over `ℚ` (the constants 0.8, 0.1,
  0.05, 0.08, 2.0, 1.5, 5.0, 4.0 are exact in the model).
* Python `str.lower`/`str.upper` are modelled per-character; all needles in
  the policy tables are ASCII, where the two notions agree.
-/

namespace Sentinel

/-- Substring test on character lists: Python `needle in hay`. -/
def listContains (needle : List Char) : List Char → Bool
  | [] => needle.isEmpty
  | c :: rest => needle.isPrefixOf (c :: rest) || listContains needle rest

/-- Python `needle in hay` on strings. -/
def strIn (needle hay : String) : Bool :=
  listContains needle.data hay.data

/-- Python `s.lower()` (per-character; ASCII-accurate). -/
def lowerStr (s : String) : String :=
  String.mk (s.data.map Char.toLower)

/-- Python `s.upper()` (per-character; ASCII-accurate). -/
def upperStr (s : String) : String :=
  String.mk (s.data.map Char.toUpper)

/-- Python `s.strip()` (leading and trailing whitespace removed). -/
def pyStrip (s : String) : String :=
  String.mk (((s.data.dropWhile Char.isWhitespace).reverse.dropWhile
    Char.isWhitespace).reverse)

/-- Python `s.startswith(pre)`. -/
def pyStartswith (s pre : String) : Bool :=
  pre.data.isPrefixOf s.data

/-- Python `s.replace(old, new)` for a single-character pattern (the only
form the source uses). -/
def replaceChar (old new : Char) (s : String) : String :=
  String.mk (s.data.map fun c => if c = old then new else c)

/-- Python `sep.join(parts)`. -/
def pyJoin (sep : String) : List String → String
  | [] => ""
  | [x] => x
  | x :: y :: rest => x ++ sep ++ pyJoin sep (y :: rest)

/-- Split a character list at every occurrence of `c` (all pieces kept,
like `str.split(c)`). -/
def splitOnChar (c : Char) : List Char → List (List Char)
  | [] => [[]]
  | x :: rest =>
    let r := splitOnChar c rest
    if x = c then [] :: r
    else
      match r with
      | [] => [[x]]
      | h :: t => (x :: h) :: t

/-- A judge decision: the dict `{verdict, reason, confidence, source}`
built throughout `app/services/judge.py`. -/
structure Decision where
  verdict : String
  reason : String
  confidence : Int
  source : String
deriving Repr, DecidableEq

/-- A cache payload as read back by `db.cache_get`: same shape, but the
`source` key may be absent (`cached.get("source", "gemini")`). -/
structure CachedDecision where
  verdict : String
  reason : String
  confidence : Int
  source : Option String
deriving Repr, DecidableEq

/-- A row of the `rules` table (`app/db.py`). -/
structure Rule where
  id : Nat
  rule_type : String
  scope : String
  value : String
deriving Repr, DecidableEq

/-- `ORDER BY id DESC LIMIT 1`: the row with the greatest id. -/
def pickLatest (rs : List Rule) : Option Rule :=
  rs.foldl
    (fun acc r =>
      match acc with
      | none => some r
      | some a => if a.id < r.id then some r else acc)
    none

/-- `Database.find_rule_match` (`app/db.py` lines 490-525): first a
`scope = 'video'` lookup on `video_id`, then a `scope = 'channel'` lookup
on `channel_id`, each optionally filtered by `rule_type` and resolved by
`ORDER BY id DESC LIMIT 1`. -/
def findRuleMatch (rules : List Rule) (videoId channelId : String)
    (pref : Option String) : Option Rule :=
  let typeOk : Rule → Bool := fun r =>
    match pref with
    | some t => if t = "whitelist" ∨ t = "blacklist" then r.rule_type == t else true
    | none => true
  let videoHit :=
    if videoId ≠ "" then
      pickLatest (rules.filter fun r =>
        r.scope == "video" && r.value == videoId && typeOk r)
    else none
  match videoHit with
  | some r => some r
  | none =>
    if channelId ≠ "" then
      pickLatest (rules.filter fun r =>
        r.scope == "channel" && r.value == channelId && typeOk r)
    else none

/-- The in-memory snapshot of a `BlocklistService` (only the two match
indexes matter to `match`). -/
structure Snapshot where
  videoIds : List String
  channelIds : List String
deriving Repr, DecidableEq

/-- `BlocklistService.match` (`app/services/blocklists.py` lines 203-210):
video set first, then channel set; returns the matching scope and value. -/
def snapshotMatch (snap : Snapshot) (videoId channelId : String) :
    Option (String × String) :=
  if videoId ≠ "" ∧ videoId ∈ snap.videoIds then some ("video", videoId)
  else if channelId ≠ "" ∧ channelId ∈ snap.channelIds then some ("channel", channelId)
  else none

/-- `_POLICY_KEYS`: the keys of `POLICY_PRESETS` in `app/config.py`, in
their list order (which is also the iteration order of the normalized
flags dict). -/
def POLICY_KEYS : List String :=
  ["block_cocomelon", "block_nursery_factory", "block_kids_clickbait_animals",
   "block_skibidi", "block_huggy_wuggy", "block_rainbow_friends",
   "block_siren_momo", "block_prank", "block_challenge", "block_granny",
   "block_fnaf", "block_unboxing_eggs", "block_kill_die",
   "block_blood_gore_horror", "block_guns_weapons", "block_elsagate_pregnant",
   "block_elsagate_injection", "block_suicide"]

/-- `_POLICY_KEYWORDS` from `app/services/judge.py` lines 40-83. -/
def policyKeywords (key : String) : List String :=
  match key with
  | "block_cocomelon" =>
      ["cocomelon", "coco melon", "jj and friends", "cocomelon nederlands",
       "cocomelon songs for kids"]
  | "block_nursery_factory" =>
      ["nursery rhymes", "kids songs", "for toddlers", "baby songs",
       "baby anna", "zoki nursery", "bebe zoki", "wheels on the bus"]
  | "block_kids_clickbait_animals" =>
      ["monkey baby", "baby monkey", "bon bon", "animal ht", "toilet",
       "poop", "potty", "ducklings in the swimming pool"]
  | "block_skibidi" => ["skibidi", "skibidi toilet"]
  | "block_huggy_wuggy" => ["huggy wuggy", "poppy playtime"]
  | "block_rainbow_friends" => ["rainbow friends"]
  | "block_siren_momo" => ["siren head", "momo"]
  | "block_prank" => ["prank"]
  | "block_challenge" => ["challenge", "24 hour challenge", "24h challenge"]
  | "block_granny" => ["granny"]
  | "block_fnaf" => ["fnaf", "five nights at freddy", "five nights at freddy\x27s"]
  | "block_unboxing_eggs" => ["unboxing", "surprise egg", "surprise eggs"]
  | "block_kill_die" => [" kill ", "killing", " die ", "dies", "died"]
  | "block_blood_gore_horror" => ["blood", "bloed", "gore", "horror"]
  | "block_guns_weapons" => ["gun", "shoot", "weapon", "wapen", "firearm"]
  | "block_elsagate_pregnant" => ["pregnant", "zwanger"]
  | "block_elsagate_injection" => ["injection", "spuit", "doctor", "needle", "surgery"]
  | "block_suicide" => ["suicide", "zelfmoord", "self harm", "self-harm"]
  | _ => []

/-- `_ALLOW_POLICY_KEYS`: keys of `ALLOW_POLICY_PRESETS` in config order. -/
def ALLOW_POLICY_KEYS : List String :=
  ["allow_90s_cartoons", "allow_00s_cartoons", "allow_all_cartoons",
   "allow_disney_family", "allow_educational", "allow_religion",
   "allow_pbs_kids", "allow_nickelodeon_90s", "allow_cartoon_network_classics",
   "allow_disney_afternoon", "allow_animal_documentaries",
   "allow_nature_science", "allow_music_rhythm", "allow_arts_crafts",
   "allow_storytelling_books", "allow_family_game_shows"]

/-- `_ALLOW_POLICY_KEYWORDS` from `app/services/judge.py` lines 92-109. -/
def allowPolicyKeywords (key : String) : List String :=
  match key with
  | "allow_90s_cartoons" =>
      ["90s cartoon", "1990s cartoon", "rugrats", "hey arnold", "animaniacs"]
  | "allow_00s_cartoons" =>
      ["2000s cartoon", "00s cartoon", "kim possible", "fairly oddparents", "avatar"]
  | "allow_all_cartoons" =>
      ["cartoon", "animation", "animated", "wb kids", "cartoon network"]
  | "allow_disney_family" =>
      ["disney", "disney jr", "pixar", "mickey", "minnie",
       "spidey and his amazing friends"]
  | "allow_educational" =>
      ["educational", "learn", "science", "math", "reading", "school",
       "kids academy"]
  | "allow_religion" =>
      ["bible", "church", "faith", "christian kids", "quran", "torah",
       "sunday school"]
  | "allow_pbs_kids" =>
      ["pbs kids", "sesame street", "arthur", "magic school bus",
       "reading rainbow"]
  | "allow_nickelodeon_90s" =>
      ["nickelodeon", "rugrats", "doug", "ren and stimpy", "catdog"]
  | "allow_cartoon_network_classics" =>
      ["dexter\x27s laboratory", "powerpuff girls", "johnny bravo",
       "ed edd n eddy"]
  | "allow_disney_afternoon" =>
      ["ducktales", "darkwing duck", "talespin", "goof troop"]
  | "allow_animal_documentaries" =>
      ["animal documentary", "wildlife", "national geographic kids",
       "nat geo kids"]
  | "allow_nature_science" =>
      ["space", "planet", "solar system", "nature", "experiment",
       "science for kids"]
  | "allow_music_rhythm" =>
      ["music for kids", "rhythm", "sing-along", "children\x27s choir"]
  | "allow_arts_crafts" =>
      ["arts and crafts", "drawing for kids", "origami", "craft tutorial"]
  | "allow_storytelling_books" =>
      ["story time", "read aloud", "storybook", "bedtime story"]
  | "allow_family_game_shows" =>
      ["family quiz", "kids game show", "trivia for kids", "family challenge"]
  | _ => []

/-- `_STRICT_CLICKBAIT_KEYWORDS` from `app/services/judge.py` lines 110-118. -/
def STRICT_CLICKBAIT_KEYWORDS : List String :=
  ["monkey baby", "baby monkey", "bon bon", "toilet", "poop", "potty",
   "animal ht"]

/-- The lowercased haystack `" title channel_title video_url "` used by the
policy matchers and the strict gate. -/
def hayOf (title channelTitle videoUrl : String) : String :=
  lowerStr (" " ++ title ++ " " ++ channelTitle ++ " " ++ videoUrl ++ " ")

/-- `JudgeService._match_policy_override` (lines 421-432): first enabled
block preset whose needle occurs in the haystack; returns its label
(`_POLICY_LABELS.get(key, key)`, the label table being config data passed
in as `labels`). -/
def matchPolicyOverride (flags : String → Bool) (labels : String → String)
    (title channelTitle videoUrl : String) : Option String :=
  let hay := hayOf title channelTitle videoUrl
  (POLICY_KEYS.find? fun key =>
      flags key && (policyKeywords key).any fun needle => strIn needle hay).map labels

/-- `JudgeService._match_allow_policy` (lines 434-444). -/
def matchAllowPolicy (flags : String → Bool) (labels : String → String)
    (title channelTitle videoUrl : String) : Option String :=
  let hay := hayOf title channelTitle videoUrl
  (ALLOW_POLICY_KEYS.find? fun key =>
      flags key && (allowPolicyKeywords key).any fun needle => strIn needle hay).map labels

/-- `JudgeService._apply_strict_allow_gate` (lines 492-522);
`minConfSetting` is `settings.strict_allow_min_confidence`. -/
def applyStrictAllowGate (minConfSetting : Int) (decision : Decision)
    (title channelTitle videoUrl : String) : Decision :=
  if upperStr decision.verdict ≠ "ALLOW" then decision
  else
    let minConf := max 0 (min 100 minConfSetting)
    if decision.confidence < minConf then
      { verdict := "BLOCK"
        reason := "Strict nanny mode: ALLOW confidence " ++ toString decision.confidence
          ++ " is below minimum " ++ toString minConf ++ "."
        confidence := 100
        source := "policy" }
    else
      let hay := hayOf title channelTitle videoUrl
      if STRICT_CLICKBAIT_KEYWORDS.any (fun needle => strIn needle hay) then
        { verdict := "BLOCK"
          reason := "Strict nanny mode: blocked by clickbait-animal safety filter."
          confidence := 100
          source := "policy" }
      else decision

/-- `(await self.db.get_setting("gemini_enabled")) or "true")`, stripped,
lowercased, compared with `"true"` (judge.py lines 286 and 357). -/
def geminiEnabledOf (setting : Option String) : Bool :=
  let raw :=
    match setting with
    | none => "true"
    | some t => if t = "" then "true" else t
  lowerStr (pyStrip raw) == "true"

/-- Outcome of the (at most two) `_call_gemini` + `_parse_output` attempts:
a successfully parsed decision, a fatal auth/quota error, or a persistent
output failure. -/
inductive GeminiOutcome where
  | ok (d : Decision)
  | fatal (msg : String)
  | outputFailed (msg : String)
deriving Repr, DecidableEq

/-- Exceptions that `evaluate` lets escape. -/
inductive JudgeError where
  | fatal (msg : String)
  | output (msg : String)
deriving Repr, DecidableEq

/-- The sources `evaluate` consults, in the order it consults them; used to
record which layers a given call actually touched. -/
inductive Step where
  | blacklistRule
  | fileBlocklist
  | whitelistRule
  | fileAllowlist
  | allowPolicy
  | blockPolicy
  | cacheLookup
  | geminiEnabledCheck
  | geminiCall
deriving Repr, DecidableEq

/-- Everything `JudgeService.evaluate` reads from its surroundings. -/
structure JudgeEnv where
  rules : List Rule
  blocklists : Option Snapshot
  allowlists : Option Snapshot
  policyFlags : String → Bool
  allowPolicyFlags : String → Bool
  policyLabels : String → String
  allowPolicyLabels : String → String
  cache : String → Option CachedDecision
  geminiEnabledSetting : Option String
  strictAllowMinConfidence : Int
  geminiKey : String
  gemini : GeminiOutcome

/-- Result of one `evaluate` call: the decision or escaped exception, the
consultation trace, and the cache write it performed (if any). -/
structure EvalOut where
  result : Except JudgeError Decision
  trace : List Step
  cacheWrite : Option (String × Decision)

/-- Whitelist-mode tail of `evaluate` (judge.py lines 236-330), entered
after the blacklist and file-blocklist checks missed. -/
def evaluateWhitelistTail (env : JudgeEnv)
    (videoId title channelId channelTitle videoUrl cacheKey : String)
    (t0 : List Step) : EvalOut :=
  let t1 := t0 ++ [Step.whitelistRule]
  match findRuleMatch env.rules videoId channelId (some "whitelist") with
  | some m =>
    { result := .ok
        { verdict := "ALLOW"
          reason := "Allowed by local whitelist (" ++ m.scope ++ ")"
          confidence := 100, source := "whitelist" }
      trace := t1, cacheWrite := none }
  | none =>
    let fileAllowHit := env.allowlists.bind fun snap => snapshotMatch snap videoId channelId
    let t2 := t1 ++ (if env.allowlists.isSome then [Step.fileAllowlist] else [])
    match fileAllowHit with
    | some (scope, _) =>
      { result := .ok
          { verdict := "ALLOW"
            reason := "Allowed by file whitelist (" ++ scope ++ ")"
            confidence := 100, source := "file_whitelist" }
        trace := t2, cacheWrite := none }
    | none =>
      let t3 := t2 ++ [Step.allowPolicy]
      match matchAllowPolicy env.allowPolicyFlags env.allowPolicyLabels
          title channelTitle videoUrl with
      | some label =>
        { result := .ok
            { verdict := "ALLOW"
              reason := "Allowed by whitelist policy toggle \"" ++ label ++ "\""
              confidence := 100, source := "policy_allowlist" }
          trace := t3, cacheWrite := none }
      | none =>
        let t4 := t3 ++ [Step.cacheLookup]
        match env.cache cacheKey with
        | some c =>
          let dec : Decision :=
            { verdict := c.verdict, reason := c.reason
              confidence := c.confidence, source := c.source.getD "gemini" }
          let gated := applyStrictAllowGate env.strictAllowMinConfidence dec
            title channelTitle videoUrl
          if gated.verdict = "ALLOW" then
            { result := .ok gated, trace := t4, cacheWrite := none }
          else
            { result := .ok
                { verdict := "BLOCK", reason := gated.reason
                  confidence := 100, source := gated.source }
              trace := t4, cacheWrite := none }
        | none =>
          let t5 := t4 ++ [Step.geminiEnabledCheck]
          if ¬ geminiEnabledOf env.geminiEnabledSetting then
            { result := .ok
                { verdict := "BLOCK"
                  reason := "Whitelist mode: Gemini is disabled and no allowlist match was found."
                  confidence := 100, source := "policy" }
              trace := t5, cacheWrite := none }
          else if env.geminiKey = "" then
            { result := .error (.fatal "missing_gemini_key"), trace := t5, cacheWrite := none }
          else
            let t6 := t5 ++ [Step.geminiCall]
            match env.gemini with
            | .fatal m => { result := .error (.fatal m), trace := t6, cacheWrite := none }
            | .outputFailed m => { result := .error (.output m), trace := t6, cacheWrite := none }
            | .ok parsed =>
              let gated := applyStrictAllowGate env.strictAllowMinConfidence parsed
                title channelTitle videoUrl
              if gated.verdict = "ALLOW" then
                { result := .ok gated, trace := t6, cacheWrite := some (cacheKey, parsed) }
              else
                { result := .ok
                    { verdict := "BLOCK", reason := gated.reason
                      confidence := 100, source := gated.source }
                  trace := t6, cacheWrite := some (cacheKey, parsed) }

/-- Blocklist-mode tail of `evaluate` (judge.py lines 332-395). -/
def evaluateBlocklistTail (env : JudgeEnv)
    (title channelTitle videoUrl cacheKey : String)
    (t0 : List Step) : EvalOut :=
  let t1 := t0 ++ [Step.blockPolicy]
  match matchPolicyOverride env.policyFlags env.policyLabels
      title channelTitle videoUrl with
  | some label =>
    { result := .ok
        { verdict := "BLOCK"
          reason := "Blocked by policy toggle \"" ++ label ++ "\""
          confidence := 100, source := "policy" }
      trace := t1, cacheWrite := none }
  | none =>
    let t2 := t1 ++ [Step.cacheLookup]
    match env.cache cacheKey with
    | some c =>
      let dec : Decision :=
        { verdict := c.verdict, reason := c.reason
          confidence := c.confidence, source := c.source.getD "gemini" }
      { result := .ok (applyStrictAllowGate env.strictAllowMinConfidence dec
          title channelTitle videoUrl)
        trace := t2, cacheWrite := none }
    | none =>
      let t3 := t2 ++ [Step.geminiEnabledCheck]
      if ¬ geminiEnabledOf env.geminiEnabledSetting then
        { result := .ok
            { verdict := "ALLOW"
              reason := "Gemini is disabled. Only local rules and blocklists are enforced."
              confidence := 0, source := "fallback" }
          trace := t3, cacheWrite := none }
      else if env.geminiKey = "" then
        { result := .error (.fatal "missing_gemini_key"), trace := t3, cacheWrite := none }
      else
        let t4 := t3 ++ [Step.geminiCall]
        match env.gemini with
        | .fatal m => { result := .error (.fatal m), trace := t4, cacheWrite := none }
        | .outputFailed m => { result := .error (.output m), trace := t4, cacheWrite := none }
        | .ok parsed =>
          { result := .ok (applyStrictAllowGate env.strictAllowMinConfidence parsed
              title channelTitle videoUrl)
            trace := t4, cacheWrite := some (cacheKey, parsed) }

/-- `JudgeService.evaluate` (judge.py lines 201-395). -/
def evaluate (env : JudgeEnv)
    (videoId title channelId channelTitle videoUrl enforcementMode : String) :
    EvalOut :=
  let mode := if enforcementMode = "whitelist" then "whitelist" else "blocklist"
  let cacheKey := mode ++ ":" ++ videoId
  let t0 : List Step := [Step.blacklistRule]
  match findRuleMatch env.rules videoId channelId (some "blacklist") with
  | some m =>
    { result := .ok
        { verdict := "BLOCK"
          reason := "Blocked by local blacklist (" ++ m.scope ++ ")"
          confidence := 100, source := "blacklist" }
      trace := t0, cacheWrite := none }
  | none =>
    let fileBlockHit := env.blocklists.bind fun snap => snapshotMatch snap videoId channelId
    let t1 := t0 ++ (if env.blocklists.isSome then [Step.fileBlocklist] else [])
    match fileBlockHit with
    | some (scope, _) =>
      { result := .ok
          { verdict := "BLOCK"
            reason := "Blocked by file blocklist (" ++ scope ++ ")"
            confidence := 100, source := "file_blacklist" }
        trace := t1, cacheWrite := none }
    | none =>
      if mode = "whitelist" then
        evaluateWhitelistTail env videoId title channelId channelTitle videoUrl cacheKey t1
      else
        evaluateBlocklistTail env title channelTitle videoUrl cacheKey t1

/-! ### Schedule evaluator (`app/services/scheduler.py`) -/

/-- Parse a digit run as a natural number (Python `int` on the `HH` / `MM`
components of a schedule value; signs, whitespace and underscores do not
occur in stored `HH:MM` values and are not modelled). -/
def parseDigits (s : String) : Option Nat :=
  if s ≠ "" ∧ s.data.all Char.isDigit then
    some (s.data.foldl (fun acc c => acc * 10 + (c.toNat - 48)) 0)
  else none

/-- `_to_minutes` (scheduler.py lines 7-9): split at the first colon and
return `int(h) * 60 + int(m)`; `none` models the exception raised on a
malformed value. -/
def toMinutes (t : String) : Option Nat :=
  match t.data.findIdx? (· = ':') with
  | none => none
  | some i =>
    let h := String.mk (t.data.take i)
    let m := String.mk (t.data.drop (i + 1))
    match parseDigits h, parseDigits m with
    | some hv, some mv => some (hv * 60 + mv)
    | _, _ => none

/-- `ScheduleService.is_active` (scheduler.py lines 13-30). The clock read
`datetime.now(tz)` is replaced by the explicit minute-of-day `nowMin` (the
timezone only determines which minute that is); `none` models the
exception escaping from `_to_minutes`. -/
def isActive (enabled : Bool) (start stop : String) (nowMin : Nat) : Option Bool :=
  if ¬ enabled then some true
  else
    match toMinutes start, toMinutes stop with
    | some startMin, some stopMin =>
      some
        (if startMin = stopMin then true
        else if startMin < stopMin then decide (startMin ≤ nowMin ∧ nowMin < stopMin)
        else decide (nowMin ≥ startMin ∨ nowMin < stopMin))
    | _, _ => none

/-- A schedule row as read by `pick_active_window` (`row.get` defaults are
the caller's concern; the fields are always present on db rows). -/
structure Window where
  enabled : Bool
  start : String
  stop : String
  timezone : String
  mode : String
deriving Repr, DecidableEq

/-- `ScheduleService.pick_active_window` (scheduler.py lines 32-45).
`nowOf` gives the current minute-of-day in a named timezone (total:
`ZoneInfo` failures fall back to UTC in the source). The outer `none`
models an exception escaping from `is_active` on a malformed window. -/
def pickActiveWindow (windows : List Window) (nowOf : String → Nat) :
    Option (Option Window) :=
  match windows with
  | [] => some none
  | w :: rest =>
    if ¬ w.enabled then pickActiveWindow rest nowOf
    else
      match isActive true w.start w.stop (nowOf w.timezone) with
      | none => none
      | some true => some (some w)
      | some false => pickActiveWindow rest nowOf

/-! ### SponsorBlock coordinator (`app/services/sponsorblock.py`) -/

/-- A parsed sponsor segment (`{"start", "end", "category", "uuid"}`);
`end` is a Lean keyword, rendered `stop`. -/
structure Seg where
  start : ℚ
  stop : ℚ
  category : String
  uuid : String
deriving Repr, DecidableEq

/-- A raw segment object from the API response; `pair` is the `"segment"`
value when it is a list of numbers (`none` when missing or not a list). -/
structure RawSeg where
  pair : Option (List ℚ)
  category : String
  uuid : String
deriving Repr, DecidableEq

/-- A raw response item; `segments = none` models a missing or non-list
`"segments"` value. An item that is not an object appears as `none` in the
payload list. -/
structure RawItem where
  videoID : String
  segments : Option (List (Option RawSeg))
deriving Repr, DecidableEq

/-- One step of the parse loop in `_fetch_segments` (sponsorblock.py lines
108-130): keep only well-formed pairs with `end > start` and
`end - start ≥ min_length`. -/
def parseRawSeg (minLength : ℚ) (rs : Option RawSeg) : Option Seg :=
  match rs with
  | none => none
  | some seg =>
    match seg.pair with
    | some [s, e] =>
      if e ≤ s then none
      else if e - s < minLength then none
      else some { start := s, stop := e, category := seg.category, uuid := seg.uuid }
    | _ => none

/-- The sort key comparison `(x["start"], x["end"])` (lexicographic). -/
def segLe (a b : Seg) : Prop :=
  a.start < b.start ∨ (a.start = b.start ∧ a.stop ≤ b.stop)

instance : DecidableRel segLe := fun a b => by
  unfold segLe; infer_instance

instance : IsTotal Seg segLe where
  total a b := by
    unfold segLe
    rcases lt_trichotomy a.start b.start with h | h | h
    · exact Or.inl (Or.inl h)
    · rcases le_total a.stop b.stop with h2 | h2
      · exact Or.inl (Or.inr ⟨h, h2⟩)
      · exact Or.inr (Or.inr ⟨h.symm, h2⟩)
    · exact Or.inr (Or.inl h)

instance : IsTrans Seg segLe where
  trans a b c hab hbc := by
    unfold segLe at *
    rcases hab with h1 | ⟨h1, h1b⟩
    · rcases hbc with h2 | ⟨h2, _⟩
      · exact Or.inl (h1.trans h2)
      · exact Or.inl (h2 ▸ h1)
    · rcases hbc with h2 | ⟨h2, h2b⟩
      · exact Or.inl (h1 ▸ h2)
      · exact Or.inr ⟨h1.trans h2, h1b.trans h2b⟩

/-- `_merge_segments` (sponsorblock.py lines 137-151), with the trailing
(still mutable) element of `merged` carried as `cur`: a segment starting
within 0.8s of the current end extends it (`end := max`, category filled
if empty); otherwise the current segment is emitted. -/
def mergeAux (cur : Seg) : List Seg → List Seg
  | [] => [cur]
  | seg :: rest =>
    if seg.start ≤ cur.stop + 4/5 then
      mergeAux
        { cur with
          stop := max cur.stop seg.stop
          category := if cur.category = "" ∧ seg.category ≠ "" then seg.category else cur.category }
        rest
  else cur :: mergeAux seg rest

/-- `_merge_segments` entry point. -/
def mergeSegments : List Seg → List Seg
  | [] => []
  | seg :: rest => mergeAux seg rest

/-- The pure tail of `_fetch_segments` (sponsorblock.py lines 93-135),
starting from the decoded JSON payload (`none` models a non-list body;
the HTTP query — including the category filters — only shapes the request
and does not constrain the response shape). Python's stable `list.sort`
by the `(start, end)` key is modelled by the stable `insertionSort`. -/
def fetchSegmentsPure (payload : Option (List (Option RawItem)))
    (videoId : String) (minLength : ℚ) : List Seg :=
  match payload with
  | none => []
  | some items =>
    match items.findSome? fun it =>
        match it with
        | some item => if item.videoID = videoId then some item else none
        | none => none with
    | none => []
    | some item =>
      match item.segments with
      | none => []
      | some rawSegments =>
        if rawSegments.filterMap (parseRawSeg minLength) = [] then []
        else mergeSegments
          ((rawSegments.filterMap (parseRawSeg minLength)).insertionSort segLe)

/-- `_select_segment` (sponsorblock.py lines 153-158). -/
def selectSegment (segments : List Seg) (position : ℚ) : Option Seg :=
  segments.find? fun seg =>
    decide (seg.start - 1/10 ≤ position) && decide (position < seg.stop - 1/20)

/-- The guard key of `try_skip_current`: the source serializes the
triple as device:video:end with the end formatted to two decimal
places; on any segment list
produced by `get_segments` (consecutive ends are > 0.8 apart) and on
colon-free video ids this string determines and is determined by the
triple, which we use directly. -/
abbrev GuardKey := Nat × String × ℚ

/-- Result of `try_skip_current`: the `(ok, err, segment)` triple, the new
guard map, and the seek target passed to `lounge_seek` (if any). -/
structure SkipResult where
  ok : Bool
  err : String
  segment : Option Seg
  guard : GuardKey → Option ℚ
  seekIssued : Option ℚ

/-- `try_skip_current` (sponsorblock.py lines 32-60). `segments` stands
for the result of `get_segments`; `now` is the `monotonic()` reading;
`seek` is `lounge_seek`, returning `(ok, err)`. -/
def trySkipCurrent (guard : GuardKey → Option ℚ) (now : ℚ)
    (deviceId : Nat) (videoId : String) (currentTime : Option ℚ)
    (segments : List Seg) (seek : ℚ → Bool × String) : SkipResult :=
  match currentTime with
  | none => { ok := false, err := "", segment := none, guard := guard, seekIssued := none }
  | some ct =>
    match selectSegment segments ct with
    | none => { ok := false, err := "", segment := none, guard := guard, seekIssued := none }
    | some selected =>
      let key : GuardKey := (deviceId, videoId, selected.stop)
      let last := (guard key).getD 0
      if now - last < 2 then
        { ok := false, err := "", segment := some selected, guard := guard, seekIssued := none }
      else
        let guard2 : GuardKey → Option ℚ := fun k => if k = key then some now else guard k
        let seekTo := max (selected.stop + 2/25) (ct + 1/10)
        let res := seek seekTo
        { ok := res.1, err := res.2, segment := some selected, guard := guard2
          seekIssued := some seekTo }

/-! ### List store append/remove (`app/services/blocklists.py`) -/

/-- Python `str.rstrip()` (trailing-whitespace strip). -/
def pyRstrip (s : String) : String :=
  String.mk (s.data.reverse.dropWhile Char.isWhitespace).reverse

/-- Python `str.splitlines()` for `\n`-separated text: split on newlines,
except that a trailing newline yields no empty final element and the
empty string yields no lines. -/
def pySplitlines (s : String) : List String :=
  if s = "" then []
  else
    let parts := (splitOnChar '\n' s.data).map String.mk
    if parts.getLast? = some "" then parts.dropLast else parts

/-- The filter loop of `remove_entry` (blocklists.py lines 163-176):
`acc` is the `filtered` list in reverse; `skip` is `skip_next_comment`.
A `# [manual]` comment is kept but flags the next line; a line whose
stripped text starts with the target is dropped and, when flagged, pops
the comment just kept; any other line clears the flag and is kept. -/
def removeLoopAcc (target : String) : List String → List String → Bool → List String
  | [], acc, _ => acc.reverse
  | line :: rest, acc, skip =>
    let stripped := pyStrip line
    if pyStartswith stripped "# [manual]" then
      removeLoopAcc target rest (line :: acc) true
    else if pyStartswith stripped target then
      let acc2 := if skip ∧ acc ≠ [] then acc.tail else acc
      removeLoopAcc target rest acc2 false
    else
      removeLoopAcc target rest (line :: acc) false

/-- In-memory state of one `BlocklistService`: the local file text plus
the parts of the snapshot that `append_entry`/`remove_entry` can touch. -/
structure ListStoreState where
  text : String
  snapVideoIds : List String
  snapChannelIds : List String
deriving Repr, DecidableEq

/-- The comment line written by `append_entry` (blocklists.py line 127). -/
def appendComment (scope value safeLabel sourceList : String) : String :=
  if safeLabel ≠ "" then "# [" ++ sourceList ++ "] " ++ safeLabel
  else "# [" ++ sourceList ++ "] " ++ scope ++ ":" ++ value

/-- The entry line written by `append_entry` (blocklists.py lines 128-132). -/
def appendLine (scope value safeLabel safeUrl : String) : String :=
  scope ++ ":" ++ value
    ++ (if safeLabel ≠ "" then " | " ++ safeLabel else "")
    ++ (if safeUrl ≠ "" then " | " ++ safeUrl else "")

/-- `append_entry` (blocklists.py lines 111-151): normalize the scope and
value, bail out on invalid input, skip when the canonical `scope:value`
already occurs anywhere in the file, otherwise append the comment and the
entry line and add the value to the in-memory snapshot. -/
def appendEntry (st : ListStoreState)
    (scope0 value0 label url sourceList : String) : ListStoreState :=
  let scope := lowerStr (pyStrip scope0)
  let value := pyStrip value0
  if ¬ (scope = "video" ∨ scope = "channel") ∨ value = "" then st
  else
    let safeLabel := replaceChar '\r' ' ' (replaceChar '\n' ' ' (pyStrip label))
    let safeUrl := pyStrip url
    if strIn (scope ++ ":" ++ value) st.text then st
    else
      { text := st.text ++ "\n" ++ appendComment scope value safeLabel sourceList
          ++ "\n" ++ appendLine scope value safeLabel safeUrl ++ "\n"
        snapVideoIds :=
          if scope = "video" ∧ value ∉ st.snapVideoIds then st.snapVideoIds ++ [value]
          else st.snapVideoIds
        snapChannelIds :=
          if scope ≠ "video" ∧ value ∉ st.snapChannelIds then st.snapChannelIds ++ [value]
          else st.snapChannelIds }

/-- `remove_entry` (blocklists.py lines 153-177): rewrite the file through
the filter loop (`"\n".join(filtered).rstrip() + "\n"`); the in-memory
snapshot is not touched. -/
def removeEntry (st : ListStoreState) (scope0 value0 : String) : ListStoreState :=
  let scope := lowerStr (pyStrip scope0)
  let value := pyStrip value0
  if ¬ (scope = "video" ∨ scope = "channel") ∨ value = "" then st
  else
    let lines := pySplitlines st.text
    let filtered := removeLoopAcc (scope ++ ":" ++ value) lines [] false
    { st with text := pyRstrip (pyJoin "\n" filtered) ++ "\n" }

/-! ### Runtime event processor (`app/main.py`) -/

/-- Public video metadata as returned by `fetch_video_metadata` (main.py
lines 919-957; on failure the function itself falls back to a stub, so a
result is always available). -/
structure Meta where
  title : String
  channel_id : String
  channel_title : String
  thumbnail_url : String
deriving Repr, DecidableEq

/-- Outcome of one `judge.evaluate` call as seen by its caller in
`main.py`: a decision, a `GeminiFatalError`, or any other exception. -/
inductive JOutcome where
  | ok (d : Decision)
  | fatal (msg : String)
  | exn (msg : String)
deriving Repr, DecidableEq

/-- A history row as consumed by `_history_allow_candidates` (only the
fields it reads). -/
structure HistRow where
  video_id : String
  verdict : String
deriving Repr, DecidableEq

/-- Everything one `process_lounge_event` call reads from its
surroundings. `now` is the `monotonic()` reading (the code reads the
clock twice within microseconds; the model uses one value), `judge` and
`play` are the judge service and `lounge.play_video`, `shuffle` stands
for `random.shuffle` (an arbitrary reordering), and `historyRows` is
`db.recent_video_decisions(limit=500)`. -/
structure ProcEnv where
  monitoring : Bool
  releaseActive : Bool
  enforcementMode : String
  now : ℚ
  meta : String → Meta
  judge : String → JOutcome
  play : String → Bool × String
  historyRows : List HistRow
  shuffle : List String → List String

/-- The per-device ephemeral maps owned by the orchestrator
(`RuntimeState` fields, main.py lines 82-88). `blockRetryAt` is keyed by
the pair the source serializes as device:video (decimal device ids
contain no colon, so the string determines the pair). -/
structure RunState where
  lastNowPlayingVideo : Nat → Option (String × ℚ)
  lastNowPlayingAt : Nat → Option ℚ
  upNextRepeat : Nat → Option (String × Nat)
  upNextCandidates : Nat → List String
  blockRetryAt : Nat → String → Option ℚ
  lastHistoryChoice : Nat → Option String

/-- A persisted `video_decisions` row (the fields the claims inspect). -/
structure DecisionRow where
  device : Nat
  video : String
  verdict : String
  reason : String
  confidence : Int
  source : String
  action : String
deriving Repr, DecidableEq

/-- Observable effects of one `process_lounge_event` call: metadata
fetches, judge calls, `play_video` attempts (in order), the persisted
decision row (if any), the emitted live event names, and the safe video
id a reinforcement task was spawned for (if any). -/
structure ProcOut where
  metaFetched : List String
  judged : List String
  playAttempts : List String
  decision : Option DecisionRow
  emitted : List String
  reinforceScheduled : Option String
deriving Repr, DecidableEq

/-- The no-effect output. -/
def emptyOut : ProcOut :=
  { metaFetched := [], judged := [], playAttempts := [], decision := none
    emitted := [], reinforceScheduled := none }

/-- A normalized worker event (`device_status` payloads are opaque to the
decision pipeline; the playback fields other than the video id feed only
the SponsorBlock coordinator, which is modelled separately). -/
inductive Event where
  | deviceStatus (device : Nat)
  | nowPlaying (device : Nat) (video : String)
  | upNext (device : Nat) (video : String)
deriving Repr, DecidableEq

/-- `_remember_up_next_candidate` (main.py lines 426-434): dedup, append
most-recent-last, truncate to the 30 most recent. -/
def rememberUpNext (st : RunState) (device : Nat) (video : String) : RunState :=
  if video = "" then st
  else
    let q := ((st.upNextCandidates device).filter (· ≠ video)) ++ [video]
    let q2 := if q.length > 30 then q.drop (q.length - 30) else q
    { st with upNextCandidates := fun d => if d = device then q2 else st.upNextCandidates d }

/-- `_drop_candidate` (main.py lines 436-442). -/
def dropCandidate (st : RunState) (device : Nat) (video : String) : RunState :=
  if video = "" then st
  else
    let q := st.upNextCandidates device
    if q = [] then st
    else { st with upNextCandidates := fun d => if d = device then q.filter (· ≠ video) else st.upNextCandidates d }

/-- The queue-candidate fail modes of `_play_safe_from_queue` (main.py
lines 463-502). -/
def queueCandidateDecision (mode : String) (o : JOutcome) : Decision :=
  match o with
  | .ok d => d
  | .fatal _ =>
    if mode = "whitelist" then
      { verdict := "BLOCK", reason := "Whitelist mode: Gemini unavailable for candidate evaluation."
        confidence := 100, source := "fallback" }
    else
      { verdict := "ALLOW", reason := "Gemini unavailable; fail-open candidate allow."
        confidence := 0, source := "fallback" }
  | .exn _ =>
    if mode = "whitelist" then
      { verdict := "BLOCK", reason := "Whitelist mode: candidate evaluation failed."
        confidence := 100, source := "fallback" }
    else
      { verdict := "ALLOW", reason := "Candidate evaluation failed; fail-open candidate allow."
        confidence := 0, source := "fallback" }

/-- The history-candidate fail modes of `_play_safe_from_history` (main.py
lines 571-610). -/
def historyCandidateDecision (mode : String) (o : JOutcome) : Decision :=
  match o with
  | .ok d => d
  | .fatal _ =>
    if mode = "whitelist" then
      { verdict := "BLOCK", reason := "Whitelist mode: Gemini unavailable for history candidate."
        confidence := 100, source := "fallback" }
    else
      { verdict := "ALLOW", reason := "Gemini unavailable; fail-open history candidate allow."
        confidence := 0, source := "fallback" }
  | .exn _ =>
    if mode = "whitelist" then
      { verdict := "BLOCK", reason := "Whitelist mode: history candidate evaluation failed."
        confidence := 100, source := "fallback" }
    else
      { verdict := "ALLOW", reason := "History candidate evaluation failed; fail-open allow."
        confidence := 0, source := "fallback" }

/-- The main-event fail modes in `process_lounge_event` (main.py lines
780-818). -/
def mainEventDecision (mode : String) (o : JOutcome) : Decision :=
  match o with
  | .ok d => d
  | .fatal _ =>
    if mode = "whitelist" then
      { verdict := "BLOCK", reason := "Whitelist mode: Gemini unavailable and no explicit allowlist match."
        confidence := 100, source := "fallback" }
    else
      { verdict := "ALLOW", reason := "Gemini is temporarily unavailable (quota/auth). Allowed by fail-open policy."
        confidence := 0, source := "fallback" }
  | .exn msg =>
    if mode = "whitelist" then
      { verdict := "BLOCK", reason := "Whitelist mode fallback block due to parser/runtime error: " ++ msg
        confidence := 100, source := "fallback" }
    else
      { verdict := "ALLOW", reason := "Fallback allow due to parser/runtime error: " ++ msg
        confidence := 0, source := "fallback" }

/-- Result of a safe-fallback attempt: the `(ok, err, safe_video_id)`
triple plus the updated state and the effect logs accumulated on the way. -/
structure SafeOut where
  ok : Bool
  err : String
  safeId : String
  state : RunState
  metaFetched : List String
  judged : List String
  playAttempts : List String

/-- The candidate loop of `_play_safe_from_queue` (main.py lines 459-511):
fetch metadata, judge, skip non-ALLOW, try `play_video`, drop the played
candidate from the FIFO on success, remember the last control error. -/
def queueTry (env : ProcEnv) (mode : String) (device : Nat) (st : RunState)
    (lastError : String) : List String → (Option String × String × RunState × List String × List String × List String)
  | [] => (none, lastError, st, [], [], [])
  | c :: rest =>
    let dec := queueCandidateDecision mode (env.judge c)
    if dec.verdict ≠ "ALLOW" then
      let r := queueTry env mode device st lastError rest
      (r.1, r.2.1, r.2.2.1, c :: r.2.2.2.1, c :: r.2.2.2.2.1, r.2.2.2.2.2)
    else
      let res := env.play c
      if res.1 then
        (some c, "", dropCandidate st device c, [c], [c], [c])
      else
        let err2 := if res.2 = "" then "TV refused to play safe candidate video." else res.2
        let r := queueTry env mode device st err2 rest
        (r.1, r.2.1, r.2.2.1, c :: r.2.2.2.1, c :: r.2.2.2.2.1, c :: r.2.2.2.2.2)

/-- `_history_allow_candidates` (main.py lines 525-537): distinct ALLOW
video ids in row order, excluding the blocked id (`seen` carries the ids
already taken). -/
def historyAllowCandidates (blocked : String) (seen : List String) :
    List HistRow → List String
  | [] => []
  | row :: rest =>
    if row.verdict ≠ "ALLOW" then historyAllowCandidates blocked seen rest
    else
      let cid := pyStrip row.video_id
      if cid = "" ∨ cid = blocked ∨ cid ∈ seen then
        historyAllowCandidates blocked seen rest
      else cid :: historyAllowCandidates blocked (cid :: seen) rest

/-- The repeat-avoidance swap in `_randomized_history_candidates` (main.py
lines 545-549): when the shuffled head equals the device's last history
choice, swap it with the first differing element. -/
def swapFirstDiff (l : List String) (lastChoice : String) : List String :=
  match l with
  | [] => []
  | x :: rest =>
    match rest.findIdx? (· ≠ lastChoice) with
    | none => x :: rest
    | some i =>
      match rest.get? i with
      | none => x :: rest
      | some y => y :: rest.set i x

/-- `_randomized_history_candidates` (main.py lines 539-550). -/
def randomizedHistoryCandidates (env : ProcEnv) (st : RunState) (device : Nat)
    (candidateIds : List String) : List String :=
  if candidateIds = [] then []
  else
    let randomized := env.shuffle candidateIds
    let lastChoice := (st.lastHistoryChoice device).getD ""
    if lastChoice ≠ "" ∧ randomized.length > 1 ∧ randomized.head? = some lastChoice then
      swapFirstDiff randomized lastChoice
    else randomized

/-- The candidate loop of `_play_safe_from_history` (main.py lines
567-623): like the queue loop but records `last_history_choice` on
success and uses the history fail modes. -/
def histTry (env : ProcEnv) (mode : String) (device : Nat) (st : RunState)
    (lastError : String) : List String → (Option String × String × RunState × List String × List String × List String)
  | [] => (none, lastError, st, [], [], [])
  | c :: rest =>
    let dec := historyCandidateDecision mode (env.judge c)
    if dec.verdict ≠ "ALLOW" then
      let r := histTry env mode device st lastError rest
      (r.1, r.2.1, r.2.2.1, c :: r.2.2.2.1, c :: r.2.2.2.2.1, r.2.2.2.2.2)
    else
      let res := env.play c
      if res.1 then
        let st2 := { st with
          lastHistoryChoice := fun d => if d = device then some c else st.lastHistoryChoice d }
        (some c, "", st2, [c], [c], [c])
      else
        let err2 := if res.2 = "" then "TV refused to play known-safe history video." else res.2
        let r := histTry env mode device st err2 rest
        (r.1, r.2.1, r.2.2.1, c :: r.2.2.2.1, c :: r.2.2.2.2.1, c :: r.2.2.2.2.2)

/-- `_play_safe_from_history` (main.py lines 552-623). -/
def playSafeFromHistory (env : ProcEnv) (mode : String) (device : Nat)
    (blocked : String) (st : RunState) : SafeOut :=
  let candidateIds := randomizedHistoryCandidates env st device
    (historyAllowCandidates blocked [] env.historyRows)
  if candidateIds = [] then
    { ok := false, err := "No known-safe history video available for fallback."
      safeId := "", state := st, metaFetched := [], judged := [], playAttempts := [] }
  else
    let r := histTry env mode device st "" candidateIds
    match r.1 with
    | some c =>
      { ok := true, err := "", safeId := c, state := r.2.2.1
        metaFetched := r.2.2.2.1, judged := r.2.2.2.2.1, playAttempts := r.2.2.2.2.2 }
    | none =>
      let lastError := r.2.1
      { ok := false
        err := if lastError ≠ "" then lastError
          else "No known-safe history video available for fallback."
        safeId := "", state := r.2.2.1
        metaFetched := r.2.2.2.1, judged := r.2.2.2.2.1, playAttempts := r.2.2.2.2.2 }

/-- `_play_safe_from_queue` (main.py lines 444-523): filter the per-device
FIFO, fall back to history when it is empty, otherwise try the first 12
filtered candidates and fall back to history after the loop. -/
def playSafeFromQueue (env : ProcEnv) (mode : String) (device : Nat)
    (blocked : String) (st : RunState) : SafeOut :=
  let queue := (st.upNextCandidates device).filter fun v => v ≠ "" && v ≠ blocked
  if queue = [] then playSafeFromHistory env mode device blocked st
  else
    let r := queueTry env mode device st "" (queue.take 12)
    match r.1 with
    | some c =>
      { ok := true, err := "", safeId := c, state := r.2.2.1
        metaFetched := r.2.2.2.1, judged := r.2.2.2.2.1, playAttempts := r.2.2.2.2.2 }
    | none =>
      let lastError := r.2.1
      let h := playSafeFromHistory env mode device blocked r.2.2.1
      let metaL := r.2.2.2.1 ++ h.metaFetched
      let judgedL := r.2.2.2.2.1 ++ h.judged
      let playL := r.2.2.2.2.2 ++ h.playAttempts
      if h.ok then
        { ok := true, err := "", safeId := h.safeId, state := h.state
          metaFetched := metaL, judged := judgedL, playAttempts := playL }
      else if lastError ≠ "" then
        { ok := false, err := pyStrip (lastError ++ " " ++ h.err), safeId := ""
          state := h.state, metaFetched := metaL, judged := judgedL, playAttempts := playL }
      else
        { ok := false
          err := if h.err ≠ "" then h.err else "No safe video found in queued candidates."
          safeId := "", state := h.state
          metaFetched := metaL, judged := judgedL, playAttempts := playL }

/-- The intervention branch of `process_lounge_event` (main.py lines
820-874): given the final decision and the considered-current flag,
produce the `action_taken` value, the state updates, and the intervention
effects. -/
def interventionStep (env : ProcEnv) (st : RunState) (device : Nat) (video : String)
    (decision : Decision) (shouldTreatAsCurrent : Bool) :
    RunState × String × List String × List String × List String × List String × Option String :=
  if shouldTreatAsCurrent ∧ decision.verdict = "BLOCK" then
    if env.releaseActive then (st, "none", [], [], [], [], none)
    else
      let lastTry := (st.blockRetryAt device video).getD 0
      if env.now - lastTry < 3/2 then (st, "none", [], [], [], [], none)
      else
        let st2 := { st with blockRetryAt := fun d v =>
          if d = device ∧ v = video then some env.now else st.blockRetryAt d v }
        let r := playSafeFromQueue env env.enforcementMode device video st2
        if r.ok then
          let st3 := { r.state with blockRetryAt := fun d v =>
            if d = device then none else r.state.blockRetryAt d v }
          (st3, "play_safe", r.metaFetched, r.judged, r.playAttempts,
            ["intervention_play_safe"], some r.safeId)
        else if r.err ≠ "" then
          (r.state, "none", r.metaFetched, r.judged, r.playAttempts,
            ["intervention_error"], none)
        else
          (r.state, "none", r.metaFetched, r.judged, r.playAttempts, [], none)
  else if shouldTreatAsCurrent then (st, "allow", [], [], [], [], none)
  else (st, "none", [], [], [], [], none)

/-- The 5-second same-video dedup test (main.py lines 747-748): the last
`now_playing` of this device carries the same video id and is less than
5 seconds old. -/
def nowPlayingDropped (st : RunState) (device : Nat) (video : String) (now : ℚ) : Bool :=
  match st.lastNowPlayingVideo device with
  | some (pv, pt) => pv == video && decide (now - pt < 5)
  | none => false

/-- The decision pipeline of `process_lounge_event` for the two playback
events (main.py lines 732-905), downstream of the SponsorBlock step
(which is modelled separately): monitoring gate, video-id check, up-next
FIFO append, the 5-second same-video dedup, the inferred-now-playing
heuristic, metadata fetch, judging with fail modes, the intervention
branch, the persisted decision row, and the live emission. -/
def processPlayback (env : ProcEnv) (st : RunState) (isNowPlaying : Bool)
    (device : Nat) (videoRaw : String) : RunState × ProcOut :=
  if ¬ env.monitoring then (st, emptyOut)
  else
    let video := pyStrip videoRaw
    if video = "" then (st, emptyOut)
    else
      let st1 := if ¬ isNowPlaying then rememberUpNext st device video else st
      let dropped : Bool := isNowPlaying && nowPlayingDropped st1 device video env.now
      if dropped then (st1, emptyOut)
      else
        let stInferred :=
          if isNowPlaying then
            let st2 := { st1 with
              lastNowPlayingVideo := fun d =>
                if d = device then some (video, env.now) else st1.lastNowPlayingVideo d
              lastNowPlayingAt := fun d =>
                if d = device then some env.now else st1.lastNowPlayingAt d
              upNextRepeat := fun d =>
                if d = device then none else st1.upNextRepeat d }
            (dropCandidate st2 device video, false)
          else
            let count :=
              match st1.upNextRepeat device with
              | some (pv, pc) => if pv = video then pc + 1 else 1
              | none => 1
            let st2 := { st1 with upNextRepeat := fun d =>
              if d = device then some (video, count) else st1.upNextRepeat d }
            let recent := env.now - ((st1.lastNowPlayingAt device).getD 0) < 4
            (st2, ¬ recent ∧ count ≥ 2)
        let st2 := stInferred.1
        let inferred := stInferred.2
        let decision := mainEventDecision env.enforcementMode (env.judge video)
        let judgeFailEmit :=
          match env.judge video with
          | .fatal _ => ["judge_failure"]
          | _ => []
        let shouldTreatAsCurrent :=
          isNowPlaying ∨ inferred ∨ (¬ isNowPlaying ∧ decision.verdict = "BLOCK")
        let r := interventionStep env st2 device video decision shouldTreatAsCurrent
        let eventName := if isNowPlaying then "now_playing" else "up_next"
        (r.1,
          { metaFetched := video :: r.2.2.1
            judged := video :: r.2.2.2.1
            playAttempts := r.2.2.2.2.1
            decision := some
              { device := device, video := video, verdict := decision.verdict
                reason := decision.reason, confidence := decision.confidence
                source := decision.source, action := r.2.1 }
            emitted := judgeFailEmit ++ r.2.2.2.2.2.1 ++ [eventName]
            reinforceScheduled := r.2.2.2.2.2.2 })

/-- `process_lounge_event` (main.py lines 721-905). -/
def processLoungeEvent (env : ProcEnv) (st : RunState) (ev : Event) :
    RunState × ProcOut :=
  match ev with
  | .deviceStatus _ => (st, { emptyOut with emitted := ["device_status"] })
  | .nowPlaying device video => processPlayback env st true device video
  | .upNext device video => processPlayback env st false device video

/-! ### Concrete instances used by witnesses and counterexamples -/

/-- A judge environment with no rules, no file lists, all policy flags
off, an empty cache, and the `gemini_enabled` setting stored as
`"false"`. -/
def envGeminiDisabled : JudgeEnv :=
  { rules := [], blocklists := none, allowlists := none
    policyFlags := fun _ => false, allowPolicyFlags := fun _ => false
    policyLabels := fun k => k, allowPolicyLabels := fun k => k
    cache := fun _ => none, geminiEnabledSetting := some "false"
    strictAllowMinConfidence := 95, geminiKey := "k"
    gemini := .outputFailed "unused" }

/-- `envGeminiDisabled` with a local blacklist rule for one video id and
a file blocklist entry for another. -/
def envJudgeLists : JudgeEnv :=
  { envGeminiDisabled with
    rules := [⟨1, "blacklist", "video", "abc12345678"⟩]
    blocklists := some ⟨["zzz99999999"], []⟩ }

/-- The empty per-device runtime state. -/
def emptyRunState : RunState :=
  { lastNowPlayingVideo := fun _ => none
    lastNowPlayingAt := fun _ => none
    upNextRepeat := fun _ => none
    upNextCandidates := fun _ => []
    blockRetryAt := fun _ _ => none
    lastHistoryChoice := fun _ => none }

/-- A processor environment: monitoring on, no release window, blocklist
mode, the judge blocking `badV0000000` and allowing everything else, and
a receiver that accepts every play command. -/
def envProc (clock : ℚ) : ProcEnv :=
  { monitoring := true, releaseActive := false
    enforcementMode := "blocklist", now := clock
    meta := fun _ => ⟨"t", "c", "ct", "th"⟩
    judge := fun v =>
      if v = "badV0000000" then .ok ⟨"BLOCK", "bad", 100, "gemini"⟩
      else .ok ⟨"ALLOW", "ok", 100, "gemini"⟩
    play := fun _ => (true, "")
    historyRows := []
    shuffle := fun l => l }

/-- A runtime state whose device 1 has two safe up-next candidates
queued. -/
def stQueued : RunState :=
  { emptyRunState with
    upNextCandidates := fun d => if d = 1 then ["safeA0000001", "safeB0000002"] else [] }

/-- A runtime state with a block-retry marker recorded at monotonic time
10 for `(device 1, badV0000000)`. -/
def stMarked : RunState :=
  { emptyRunState with
    blockRetryAt := fun d v =>
      if d = 1 ∧ v = "badV0000000" then some 10 else none }

/-- A runtime state whose device 1 has thirteen distinct queued up-next
candidates, the most recent last. -/
def stThirteen : RunState :=
  { emptyRunState with
    upNextCandidates := fun d =>
      if d = 1 then
        ["v010000000a", "v020000000a", "v030000000a", "v040000000a", "v050000000a",
         "v060000000a", "v070000000a", "v080000000a", "v090000000a", "v100000000a",
         "v110000000a", "v120000000a", "v130000000a"]
      else [] }

/-- A processor environment whose judge allows only the most recent
queued candidate `v130000000a` and blocks everything else. -/
def envAllowLastOnly : ProcEnv :=
  { monitoring := true, releaseActive := false
    enforcementMode := "blocklist", now := 100
    meta := fun _ => ⟨"t", "c", "ct", "th"⟩
    judge := fun v =>
      if v = "v130000000a" then .ok ⟨"ALLOW", "ok", 100, "gemini"⟩
      else .ok ⟨"BLOCK", "bad", 100, "gemini"⟩
    play := fun _ => (true, "")
    historyRows := []
    shuffle := fun l => l }

/-- A list store whose file holds one manually-added video entry with its
`# [manual]` comment, snapshot in sync with the file. -/
def stListStore : ListStoreState :=
  { text := "# [manual] lbl\nvideo:abc12345678\n"
    snapVideoIds := ["abc12345678"]
    snapChannelIds := [] }

/-! ## Theorems -/

/-! ### C1 — the strict allow gate invariant -/

/-- Any decision surviving the strict allow gate with verdict `ALLOW` has
confidence at least the clamped threshold. -/
theorem applyStrictAllowGate_allow {smc : Int} {d0 d : Decision} {t c u : String}
    (h : applyStrictAllowGate smc d0 t c u = d) (hv : d.verdict = "ALLOW") :
    max 0 (min 100 smc) ≤ d.confidence := by
  subst h
  simp only [applyStrictAllowGate] at hv ⊢
  split_ifs at hv ⊢ with h1 h2 h3
  · exact absurd (by rw [hv]; decide) h1
  · exact max_le (by norm_num) (min_le_left _ _)
  · exact max_le (by norm_num) (min_le_left _ _)
  · exact not_lt.mp h2

/-- ALLOW results of the whitelist-mode tail come from the whitelist, the
file allowlist, the allow-policy toggles, or the strict allow gate. -/
theorem evaluateWhitelistTail_allow_sources (env : JudgeEnv)
    (videoId title channelId channelTitle videoUrl cacheKey : String)
    (t0 : List Step) {d : Decision}
    (hres : (evaluateWhitelistTail env videoId title channelId channelTitle
      videoUrl cacheKey t0).result = .ok d)
    (hv : d.verdict = "ALLOW") :
    d.source = "whitelist" ∨ d.source = "file_whitelist" ∨
      d.source = "policy_allowlist" ∨
      max 0 (min 100 env.strictAllowMinConfidence) ≤ d.confidence := by
  simp only [evaluateWhitelistTail] at hres
  split at hres
  · simp only [Except.ok.injEq] at hres
    rw [← hres]
    simp
  · split at hres
    · simp only [Except.ok.injEq] at hres
      rw [← hres]
      simp
    · split at hres
      · simp only [Except.ok.injEq] at hres
        rw [← hres]
        simp
      · split at hres
        · split at hres
          · simp only [Except.ok.injEq] at hres
            exact Or.inr (Or.inr (Or.inr (applyStrictAllowGate_allow hres hv)))
          · simp only [Except.ok.injEq] at hres
            rw [← hres] at hv
            simp at hv
        · split at hres
          · simp only [Except.ok.injEq] at hres
            rw [← hres] at hv
            simp at hv
          · split at hres
            · simp at hres
            · split at hres
              · simp at hres
              · simp at hres
              · split at hres
                · simp only [Except.ok.injEq] at hres
                  exact Or.inr (Or.inr (Or.inr (applyStrictAllowGate_allow hres hv)))
                · simp only [Except.ok.injEq] at hres
                  rw [← hres] at hv
                  simp at hv

/-- ALLOW results of the blocklist-mode tail come from the judge-disabled
fallback or the strict allow gate. -/
theorem evaluateBlocklistTail_allow_sources (env : JudgeEnv)
    (title channelTitle videoUrl cacheKey : String) (t0 : List Step) {d : Decision}
    (hres : (evaluateBlocklistTail env title channelTitle videoUrl cacheKey t0).result =
      .ok d)
    (hv : d.verdict = "ALLOW") :
    d.source = "fallback" ∨
      max 0 (min 100 env.strictAllowMinConfidence) ≤ d.confidence := by
  simp only [evaluateBlocklistTail] at hres
  split at hres
  · simp only [Except.ok.injEq] at hres
    rw [← hres] at hv
    simp at hv
  · split at hres
    · simp only [Except.ok.injEq] at hres
      exact Or.inr (applyStrictAllowGate_allow hres hv)
    · split at hres
      · simp only [Except.ok.injEq] at hres
        rw [← hres]
        simp
      · split at hres
        · simp at hres
        · split at hres
          · simp at hres
          · simp at hres
          · simp only [Except.ok.injEq] at hres
            exact Or.inr (applyStrictAllowGate_allow hres hv)

/--
C1 (amended): for every call to `evaluate` that returns a decision with
verdict ALLOW, either its source is one of `whitelist`, `file_whitelist`,
`policy_allowlist`, or `fallback` (the judge-disabled blocklist path
returns ALLOW with confidence 0 and source `fallback`, bypassing the
gate), or its confidence is at least `STRICT_ALLOW_MIN_CONFIDENCE`
(default 95; assumed here to lie in `[0, 100]`, the range the gate clamps
it to). The cache and classifier paths always satisfy the confidence
bound or are rewritten to BLOCK.
-/
theorem evaluate_allow_invariant (env : JudgeEnv)
    (videoId title channelId channelTitle videoUrl enforcementMode : String)
    {d : Decision}
    (hlo : 0 ≤ env.strictAllowMinConfidence)
    (hhi : env.strictAllowMinConfidence ≤ 100)
    (hres : (evaluate env videoId title channelId channelTitle videoUrl
      enforcementMode).result = .ok d)
    (hv : d.verdict = "ALLOW") :
    (d.source = "whitelist" ∨ d.source = "file_whitelist" ∨
      d.source = "policy_allowlist" ∨ d.source = "fallback") ∨
    env.strictAllowMinConfidence ≤ d.confidence := by
  have hclamp : max 0 (min 100 env.strictAllowMinConfidence) =
      env.strictAllowMinConfidence := by
    rw [min_eq_right hhi, max_eq_right hlo]
  simp only [evaluate] at hres
  split at hres
  · simp only [Except.ok.injEq] at hres
    rw [← hres] at hv
    simp at hv
  · split at hres
    · simp only [Except.ok.injEq] at hres
      rw [← hres] at hv
      simp at hv
    · split at hres
      · rcases evaluateWhitelistTail_allow_sources env videoId title channelId
          channelTitle videoUrl _ _ hres hv with h | h | h | h
        · exact Or.inl (Or.inl h)
        · exact Or.inl (Or.inr (Or.inl h))
        · exact Or.inl (Or.inr (Or.inr (Or.inl h)))
        · exact Or.inr (hclamp ▸ h)
      · rcases evaluateBlocklistTail_allow_sources env title channelTitle
          videoUrl _ _ hres hv with h | h
        · exact Or.inl (Or.inr (Or.inr (Or.inr h)))
        · exact Or.inr (hclamp ▸ h)

/--
C1 counterexample to the claim as stated: with the judge disabled and
nothing else matching, blocklist-mode `evaluate` surfaces an ALLOW whose
source is `fallback` — not one of `whitelist` / `file_whitelist` /
`policy_allowlist` — and whose confidence 0 is below
`STRICT_ALLOW_MIN_CONFIDENCE = 95`.
-/
theorem evaluate_allow_invariant_counterexample :
    (evaluate envGeminiDisabled "neutral0002" "Quiet harbor tour" "UCneutral" "Tours"
        "https://www.youtube.com/watch?v=neutral0002" "blocklist").result =
      .ok ⟨"ALLOW", "Gemini is disabled. Only local rules and blocklists are enforced.",
        0, "fallback"⟩ ∧
    envGeminiDisabled.strictAllowMinConfidence = 95 ∧
    ¬ ("fallback" = "whitelist" ∨ "fallback" = "file_whitelist" ∨
        "fallback" = "policy_allowlist") ∧
    ¬ ((95 : Int) ≤ 0) := by
  refine ⟨rfl, rfl, by decide, by decide⟩

/-- Witness for C1 (amended) at the judge-disabled fallback ALLOW. -/
theorem evaluate_allow_invariant_witness :
    (("fallback" = "whitelist" ∨ "fallback" = "file_whitelist" ∨
      "fallback" = "policy_allowlist" ∨ "fallback" = "fallback") ∨
    (95 : Int) ≤ 0) := by
  have h := evaluate_allow_invariant envGeminiDisabled "neutral0002" "Quiet harbor tour"
    "UCneutral" "Tours" "https://www.youtube.com/watch?v=neutral0002" "blocklist"
    (d := ⟨"ALLOW", "Gemini is disabled. Only local rules and blocklists are enforced.",
      0, "fallback"⟩)
    (by decide) (by decide) rfl rfl
  exact h

/-! ### C2 — blacklist and file-blocklist precedence -/

/--
C2: for every input tuple and both enforcement modes, a local blacklist
match makes `evaluate` return BLOCK with source `blacklist` and
confidence 100, having consulted nothing but the blacklist (trace
`[blacklistRule]` — no file list, whitelist, policy toggle, cache, or
classifier); and with no blacklist match but a file blocklist match it
returns BLOCK with source `file_blacklist` and confidence 100, having
consulted only the blacklist and the file blocklist.
-/
theorem evaluate_blacklist_precedence (env : JudgeEnv)
    (videoId title channelId channelTitle videoUrl enforcementMode : String) :
    (∀ m, findRuleMatch env.rules videoId channelId (some "blacklist") = some m →
      (evaluate env videoId title channelId channelTitle videoUrl enforcementMode).result =
        .ok ⟨"BLOCK", "Blocked by local blacklist (" ++ m.scope ++ ")", 100, "blacklist"⟩ ∧
      (evaluate env videoId title channelId channelTitle videoUrl enforcementMode).trace =
        [Step.blacklistRule]) ∧
    (∀ snap scope value,
      findRuleMatch env.rules videoId channelId (some "blacklist") = none →
      env.blocklists = some snap →
      snapshotMatch snap videoId channelId = some (scope, value) →
      (evaluate env videoId title channelId channelTitle videoUrl enforcementMode).result =
        .ok ⟨"BLOCK", "Blocked by file blocklist (" ++ scope ++ ")", 100, "file_blacklist"⟩ ∧
      (evaluate env videoId title channelId channelTitle videoUrl enforcementMode).trace =
        [Step.blacklistRule, Step.fileBlocklist]) := by
  constructor
  · intro m hm
    constructor
    · simp [evaluate, hm]
    · simp [evaluate, hm]
  · intro snap scope value hm hbl hsm
    constructor
    · simp [evaluate, hm, hbl, hsm]
    · simp [evaluate, hm, hbl, hsm]

/-- Witness for C2: the seeded rule `blacklist/video/abc12345678` blocks
that video with source `blacklist`, and the file-blocklisted
`zzz99999999` is blocked with source `file_blacklist`. -/
theorem evaluate_blacklist_precedence_witness :
    ((evaluate envJudgeLists "abc12345678" "" "" ""
        "https://www.youtube.com/watch?v=abc12345678" "blocklist").result =
      .ok ⟨"BLOCK", "Blocked by local blacklist (" ++ "video" ++ ")", 100, "blacklist"⟩ ∧
     (evaluate envJudgeLists "abc12345678" "" "" ""
        "https://www.youtube.com/watch?v=abc12345678" "blocklist").trace =
      [Step.blacklistRule]) ∧
    ((evaluate envJudgeLists "zzz99999999" "" "" ""
        "https://www.youtube.com/watch?v=zzz99999999" "blocklist").result =
      .ok ⟨"BLOCK", "Blocked by file blocklist (" ++ "video" ++ ")", 100, "file_blacklist"⟩ ∧
     (evaluate envJudgeLists "zzz99999999" "" "" ""
        "https://www.youtube.com/watch?v=zzz99999999" "blocklist").trace =
      [Step.blacklistRule, Step.fileBlocklist]) := by
  constructor
  · exact (evaluate_blacklist_precedence envJudgeLists "abc12345678" "" "" ""
      "https://www.youtube.com/watch?v=abc12345678" "blocklist").1
      ⟨1, "blacklist", "video", "abc12345678"⟩ (by decide)
  · exact (evaluate_blacklist_precedence envJudgeLists "zzz99999999" "" "" ""
      "https://www.youtube.com/watch?v=zzz99999999" "blocklist").2
      ⟨["zzz99999999"], []⟩ "video" "zzz99999999" (by decide) rfl (by decide)

/-! ### C3 — judge-disabled fail modes -/

/--
C3: when the `gemini_enabled` setting parses to false and no local rule,
file-list entry, policy keyword, or unexpired cache entry decides the
video, `evaluate` returns ALLOW with confidence 0 and source `fallback`
in blocklist mode, and BLOCK with confidence 100 and source `policy` in
whitelist mode.
-/
theorem evaluate_gemini_disabled_fail_modes (env : JudgeEnv)
    (videoId title channelId channelTitle videoUrl : String)
    (hb : findRuleMatch env.rules videoId channelId (some "blacklist") = none)
    (hw : findRuleMatch env.rules videoId channelId (some "whitelist") = none)
    (hfb : env.blocklists.bind (fun snap => snapshotMatch snap videoId channelId) = none)
    (hfa : env.allowlists.bind (fun snap => snapshotMatch snap videoId channelId) = none)
    (hp : matchPolicyOverride env.policyFlags env.policyLabels
      title channelTitle videoUrl = none)
    (hap : matchAllowPolicy env.allowPolicyFlags env.allowPolicyLabels
      title channelTitle videoUrl = none)
    (hcb : env.cache ("blocklist:" ++ videoId) = none)
    (hcw : env.cache ("whitelist:" ++ videoId) = none)
    (hge : geminiEnabledOf env.geminiEnabledSetting = false) :
    (evaluate env videoId title channelId channelTitle videoUrl "blocklist").result =
      .ok ⟨"ALLOW", "Gemini is disabled. Only local rules and blocklists are enforced.",
        0, "fallback"⟩ ∧
    (evaluate env videoId title channelId channelTitle videoUrl "whitelist").result =
      .ok ⟨"BLOCK", "Whitelist mode: Gemini is disabled and no allowlist match was found.",
        100, "policy"⟩ := by
  constructor
  · simp [evaluate, evaluateBlocklistTail, hb, hfb, hp, hcb, hge]
  · simp [evaluate, evaluateWhitelistTail, hb, hw, hfb, hfa, hap, hcw, hge]

/-- Witness for C3 at a neutral input in `envGeminiDisabled`. -/
theorem evaluate_gemini_disabled_fail_modes_witness :
    (evaluate envGeminiDisabled "neutral0001" "Quiet countryside walk" "UCneutral" "Walks"
        "https://www.youtube.com/watch?v=neutral0001" "blocklist").result =
      .ok ⟨"ALLOW", "Gemini is disabled. Only local rules and blocklists are enforced.",
        0, "fallback"⟩ ∧
    (evaluate envGeminiDisabled "neutral0001" "Quiet countryside walk" "UCneutral" "Walks"
        "https://www.youtube.com/watch?v=neutral0001" "whitelist").result =
      .ok ⟨"BLOCK", "Whitelist mode: Gemini is disabled and no allowlist match was found.",
        100, "policy"⟩ :=
  evaluate_gemini_disabled_fail_modes envGeminiDisabled "neutral0001"
    "Quiet countryside walk" "UCneutral" "Walks"
    "https://www.youtube.com/watch?v=neutral0001"
    (by decide) (by decide) rfl rfl (by decide) (by decide) rfl rfl (by decide)

/-! ### C4 — schedule evaluator -/

/-- An enabled window with parseable bounds evaluates without error. -/
theorem isActive_eq_of_parse {start stop : String} {s e : Nat}
    (hs : toMinutes start = some s) (he : toMinutes stop = some e) (nowMin : Nat) :
    isActive true start stop nowMin =
      some (if s = e then true
        else if s < e then decide (s ≤ nowMin ∧ nowMin < e)
        else decide (nowMin ≥ s ∨ nowMin < e)) := by
  simp [isActive, hs, he]

/--
C4: `is_active` returns `true` for a disabled window; for an enabled
window with `start`/`end` parsed to minutes it returns `true` when they
are equal, `start ≤ now < end` when `start < end`, and
`now ≥ start ∨ now < end` when `start > end`; and `pick_active_window`
returns the first enabled window (in list order) for which `is_active`
holds, or none when no enabled window is active. Each window is judged at
the current minute of its own timezone, given by `nowOf`.
-/
theorem schedule_evaluator_spec (nowOf : String → Nat) :
    (∀ start stop nowMin, isActive false start stop nowMin = some true) ∧
    (∀ start stop nowMin s e, toMinutes start = some s → toMinutes stop = some e →
      isActive true start stop nowMin =
        some (if s = e then true
          else if s < e then decide (s ≤ nowMin ∧ nowMin < e)
          else decide (nowMin ≥ s ∨ nowMin < e))) ∧
    (∀ windows : List Window,
      (∀ w ∈ windows, w.enabled →
        (toMinutes w.start).isSome ∧ (toMinutes w.stop).isSome) →
      pickActiveWindow windows nowOf =
        some (windows.find? fun w =>
          w.enabled && (isActive true w.start w.stop (nowOf w.timezone)).getD false)) := by
  refine ⟨fun start stop nowMin => by simp [isActive],
    fun start stop nowMin s e hs he => isActive_eq_of_parse hs he nowMin, ?_⟩
  intro windows hparse
  induction windows with
  | nil => simp [pickActiveWindow]
  | cons w rest ih =>
    by_cases hw : w.enabled
    · obtain ⟨hs, he⟩ := hparse w (List.mem_cons_self w rest) hw
      obtain ⟨s, hs⟩ := Option.isSome_iff_exists.mp hs
      obtain ⟨e, he⟩ := Option.isSome_iff_exists.mp he
      have hact := isActive_eq_of_parse hs he (nowOf w.timezone)
      rw [pickActiveWindow, if_neg (by simp [hw])]
      rw [hact]
      by_cases hb : (if s = e then true
          else if s < e then decide (s ≤ nowOf w.timezone ∧ nowOf w.timezone < e)
          else decide (nowOf w.timezone ≥ s ∨ nowOf w.timezone < e)) = true
      · have hpred : (w.enabled &&
            (isActive true w.start w.stop (nowOf w.timezone)).getD false) = true := by
          simp only [hw, hact, Option.getD_some, Bool.true_and]
          exact hb
        simp only [hb, List.find?, hpred]
      · simp only [Bool.not_eq_true] at hb
        have hpred : (w.enabled &&
            (isActive true w.start w.stop (nowOf w.timezone)).getD false) = false := by
          simp only [hw, hact, Option.getD_some, Bool.true_and]
          exact hb
        simp only [hb, List.find?, hpred]
        exact ih fun v hv => hparse v (List.mem_cons_of_mem w hv)
    · have hwb : w.enabled = false := Bool.not_eq_true _ |>.mp hw
      rw [pickActiveWindow, if_pos (by simp [hwb])]
      have hpred : (w.enabled &&
          (isActive true w.start w.stop (nowOf w.timezone)).getD false) = false := by
        simp [hwb]
      simp only [List.find?, hpred]
      exact ih fun v hv => hparse v (List.mem_cons_of_mem w hv)

/-- Witness for C4: 01:00 lies inside the cross-midnight window
22:00-06:00, and `pick_active_window` selects that window over a later
one. -/
theorem schedule_evaluator_spec_witness :
    isActive true "22:00" "06:00" 60 =
      some (if 1320 = 360 then true
        else if 1320 < 360 then decide (1320 ≤ 60 ∧ 60 < 360)
        else decide (60 ≥ 1320 ∨ 60 < 360)) ∧
    pickActiveWindow
        [⟨false, "07:00", "19:00", "UTC", "blocklist"⟩,
         ⟨true, "22:00", "06:00", "UTC", "whitelist"⟩] (fun _ => 60) =
      some (List.find? (fun w =>
          w.enabled && (isActive true w.start w.stop 60).getD false)
        [⟨false, "07:00", "19:00", "UTC", "blocklist"⟩,
         ⟨true, "22:00", "06:00", "UTC", "whitelist"⟩]) := by
  constructor
  · exact (schedule_evaluator_spec (fun _ => 60)).2.1 "22:00" "06:00" 60 1320 360
      (by decide) (by decide)
  · exact (schedule_evaluator_spec (fun _ => 60)).2.2
      [⟨false, "07:00", "19:00", "UTC", "blocklist"⟩,
       ⟨true, "22:00", "06:00", "UTC", "whitelist"⟩]
      (by decide)

/-! ### C9 — list store append/remove -/

/-- The remove filter keeps every line that neither starts with the
target nor is followed by one while carrying the `# [manual]` flag. -/
theorem removeLoopAcc_clean (target : String) (L : List String)
    (hL : ∀ l ∈ L, pyStartswith (pyStrip l) target = false ∧
      pyStartswith (pyStrip l) "# [manual]" = false) :
    ∀ (acc : List String) (skip : Bool),
      removeLoopAcc target L acc skip = acc.reverse ++ L := by
  induction L with
  | nil => intro acc skip; simp [removeLoopAcc]
  | cons l rest ih =>
    intro acc skip
    obtain ⟨ht, hm⟩ := hL l (List.mem_cons_self _ _)
    rw [removeLoopAcc]
    rw [if_neg (by simp [hm]), if_neg (by simp [ht])]
    rw [ih (fun x hx => hL x (List.mem_cons_of_mem _ hx)) (l :: acc) false]
    simp

/-- The remove filter on a file that contains the target entry exactly
once, preceded by its `# [manual]` comment: both lines are dropped and
everything else is kept. -/
theorem removeLoopAcc_removes_entry (target : String)
    (L1 : List String) (c e : String) (L2 : List String)
    (h1 : ∀ l ∈ L1, pyStartswith (pyStrip l) target = false ∧
      pyStartswith (pyStrip l) "# [manual]" = false)
    (hc : pyStartswith (pyStrip c) "# [manual]" = true)
    (hem : pyStartswith (pyStrip e) "# [manual]" = false)
    (het : pyStartswith (pyStrip e) target = true)
    (h2 : ∀ l ∈ L2, pyStartswith (pyStrip l) target = false ∧
      pyStartswith (pyStrip l) "# [manual]" = false) :
    ∀ acc : List String,
      removeLoopAcc target (L1 ++ c :: e :: L2) acc false =
        acc.reverse ++ L1 ++ L2 := by
  induction L1 with
  | nil =>
    intro acc
    simp only [List.nil_append]
    rw [removeLoopAcc, if_pos (by simp [hc])]
    rw [removeLoopAcc, if_neg (by simp [hem]), if_pos (by simp [het])]
    simp [removeLoopAcc_clean target L2 h2]
  | cons l rest ih =>
    intro acc
    obtain ⟨ht, hm⟩ := h1 l (List.mem_cons_self _ _)
    simp only [List.cons_append]
    rw [removeLoopAcc]
    rw [if_neg (by simp [hm]), if_neg (by simp [ht])]
    rw [ih (fun x hx => h1 x (List.mem_cons_of_mem _ hx)) (l :: acc)]
    simp

/--
C9 counterexample to the "and then reload the snapshot" part of the
claim: removing the only entry of the file rewrites the file (the
canonical `video:abc12345678` no longer occurs in it) but leaves the
in-memory snapshot untouched — it still matches the removed id, which a
reload of the rewritten file could not produce.
-/
theorem removeEntry_no_reload_counterexample :
    (removeEntry stListStore "video" "abc12345678").snapVideoIds = ["abc12345678"] ∧
    (removeEntry stListStore "video" "abc12345678").text = "\n" ∧
    strIn "video:abc12345678" (removeEntry stListStore "video" "abc12345678").text = false ∧
    strIn "video:abc12345678" stListStore.text = true := by
  refine ⟨rfl, rfl, by decide, by decide⟩

/--
C9 (amended): `append_entry` skips the write whenever the canonical
`scope:value` already appears anywhere in the file, and otherwise appends
a `# [<source_list>] <label>` comment line (with `scope:value` in place
of an empty label) followed by the canonical entry line, updating the
in-memory snapshot incrementally (no reload); `remove_entry` removes the
lines whose stripped text starts with the canonical `scope:value`
together with an immediately preceding `# [manual]` comment line, and
leaves the in-memory snapshot unchanged (no reload). Both operations
serialize on the store mutex (concurrency is outside this model).
-/
theorem appendEntry_removeEntry_spec :
    (∀ (st : ListStoreState) (scope value label url src : String),
      lowerStr (pyStrip scope) = scope → pyStrip value = value →
      strIn (scope ++ ":" ++ value) st.text = true →
      appendEntry st scope value label url src = st) ∧
    (∀ (st : ListStoreState) (scope value label url src : String),
      (scope = "video" ∨ scope = "channel") →
      lowerStr (pyStrip scope) = scope → pyStrip value = value → value ≠ "" →
      strIn (scope ++ ":" ++ value) st.text = false →
      (appendEntry st scope value label url src).text =
        st.text ++ "\n"
          ++ appendComment scope value
            (replaceChar '\r' ' ' (replaceChar '\n' ' ' (pyStrip label))) src
          ++ "\n"
          ++ appendLine scope value
            (replaceChar '\r' ' ' (replaceChar '\n' ' ' (pyStrip label)))
            (pyStrip url)
          ++ "\n" ∧
      (scope = "video" → value ∈ (appendEntry st scope value label url src).snapVideoIds)) ∧
    (∀ (st : ListStoreState) (scope value : String) (L1 : List String) (c e : String)
      (L2 : List String),
      (scope = "video" ∨ scope = "channel") →
      lowerStr (pyStrip scope) = scope → pyStrip value = value → value ≠ "" →
      pySplitlines st.text = L1 ++ c :: e :: L2 →
      (∀ l ∈ L1, pyStartswith (pyStrip l) (scope ++ ":" ++ value) = false ∧
        pyStartswith (pyStrip l) "# [manual]" = false) →
      pyStartswith (pyStrip c) "# [manual]" = true →
      pyStartswith (pyStrip e) "# [manual]" = false →
      pyStartswith (pyStrip e) (scope ++ ":" ++ value) = true →
      (∀ l ∈ L2, pyStartswith (pyStrip l) (scope ++ ":" ++ value) = false ∧
        pyStartswith (pyStrip l) "# [manual]" = false) →
      (removeEntry st scope value).text = pyRstrip (pyJoin "\n" (L1 ++ L2)) ++ "\n" ∧
      (removeEntry st scope value).snapVideoIds = st.snapVideoIds ∧
      (removeEntry st scope value).snapChannelIds = st.snapChannelIds) := by
  refine ⟨?_, ?_, ?_⟩
  · intro st scope value label url src hsc hval hin
    unfold appendEntry
    rw [hsc, hval]
    by_cases hv : ¬ (scope = "video" ∨ scope = "channel") ∨ value = ""
    · rw [if_pos hv]
    · rw [if_neg hv, if_pos hin]
  · intro st scope value label url src hscope hsc hval hne hout
    unfold appendEntry
    rw [hsc, hval]
    rw [if_neg (by simp [hne]; tauto)]
    rw [if_neg (by simp [hout])]
    constructor
    · rfl
    · intro hvid
      simp only [hvid]
      by_cases hmem : value ∈ st.snapVideoIds
      · simp [hmem]
      · simp [hmem]
  · intro st scope value L1 c e L2 hscope hsc hval hne hsplit h1 hc hem het h2
    unfold removeEntry
    rw [hsc, hval]
    rw [if_neg (by simp [hne]; tauto)]
    simp only [hsplit, removeLoopAcc_removes_entry (scope ++ ":" ++ value) L1 c e L2
      h1 hc hem het h2]
    simp

/-- Witness for C9 (amended): skip on a duplicate, append of a fresh
entry, and removal of a manual entry with its comment. -/
theorem appendEntry_removeEntry_spec_witness :
    appendEntry ⟨"video:abc12345678\n", ["abc12345678"], []⟩
        "video" "abc12345678" "lbl" "" "manual" =
      ⟨"video:abc12345678\n", ["abc12345678"], []⟩ ∧
    (appendEntry ⟨"# header\n", [], []⟩ "video" "zzz99999999" "lbl" "" "manual").text =
      "# header\n" ++ "\n"
        ++ appendComment "video" "zzz99999999"
          (replaceChar '\r' ' ' (replaceChar '\n' ' ' (pyStrip "lbl"))) "manual"
        ++ "\n"
        ++ appendLine "video" "zzz99999999"
          (replaceChar '\r' ' ' (replaceChar '\n' ' ' (pyStrip "lbl"))) (pyStrip "")
        ++ "\n" ∧
    (removeEntry stListStore "video" "abc12345678").text =
      pyRstrip (pyJoin "\n" ([] ++ [])) ++ "\n" := by
  refine ⟨?_, ?_, ?_⟩
  · exact appendEntry_removeEntry_spec.1 ⟨"video:abc12345678\n", ["abc12345678"], []⟩
      "video" "abc12345678" "lbl" "" "manual" (by decide) (by decide) (by decide)
  · exact ((appendEntry_removeEntry_spec.2.1 ⟨"# header\n", [], []⟩
      "video" "zzz99999999" "lbl" "" "manual" (Or.inl rfl) (by decide) (by decide)
      (by decide) (by decide))).1
  · exact (appendEntry_removeEntry_spec.2.2 stListStore "video" "abc12345678"
      [] "# [manual] lbl" "video:abc12345678" []
      (Or.inl rfl) (by decide) (by decide) (by decide) (by decide)
      (by intro l hl; cases hl) (by decide) (by decide) (by decide)
      (by intro l hl; cases hl)).1

/-! ### C10 — merged segment lists are ordered and disjoint -/

/-- The merge loop never empties the list, and the head keeps the start
of the carried segment while its end can only grow. -/
theorem mergeAux_head (l : List Seg) (cur : Seg) :
    ∃ h t, mergeAux cur l = h :: t ∧ h.start = cur.start ∧ cur.stop ≤ h.stop := by
  induction l generalizing cur with
  | nil => exact ⟨cur, [], rfl, rfl, le_refl _⟩
  | cons seg rest ih =>
    rw [mergeAux]
    by_cases hle : seg.start ≤ cur.stop + 4/5
    · rw [if_pos hle]
      obtain ⟨h, t, heq, hstart, hstop⟩ := ih _
      exact ⟨h, t, heq, hstart, le_trans (le_max_left _ _) hstop⟩
    · rw [if_neg hle]
      exact ⟨cur, mergeAux seg rest, rfl, rfl, le_refl _⟩

/-- Invariant of the merge loop: on a start-sorted input of well-formed
segments it produces well-formed segments separated by more than 0.8s. -/
theorem mergeAux_invariant (l : List Seg) (cur : Seg)
    (hcur : cur.start < cur.stop)
    (hgood : ∀ s ∈ l, s.start < s.stop)
    (hstart : ∀ s ∈ l, cur.start ≤ s.start)
    (hsorted : l.Pairwise fun a b => a.start ≤ b.start) :
    (∀ s ∈ mergeAux cur l, s.start < s.stop) ∧
    (mergeAux cur l).Chain' fun a b => a.stop + 4/5 < b.start := by
  induction l generalizing cur with
  | nil =>
    refine ⟨?_, List.chain'_singleton _⟩
    intro s hs
    rw [mergeAux, List.mem_singleton] at hs
    exact hs ▸ hcur
  | cons seg rest ih =>
    rw [mergeAux]
    by_cases hle : seg.start ≤ cur.stop + 4/5
    · rw [if_pos hle]
      exact ih
        { cur with
          stop := max cur.stop seg.stop
          category := if cur.category = "" ∧ seg.category ≠ "" then seg.category
            else cur.category }
        (lt_of_lt_of_le hcur (le_max_left _ _))
        (fun s hs => hgood s (List.mem_cons_of_mem _ hs))
        (fun s hs => hstart s (List.mem_cons_of_mem _ hs))
        hsorted.of_cons
    · rw [if_neg hle]
      have hseg : seg.start < seg.stop := hgood seg (List.mem_cons_self _ _)
      have hrest : ∀ s ∈ rest, s.start < s.stop :=
        fun s hs => hgood s (List.mem_cons_of_mem _ hs)
      have hrs : ∀ s ∈ rest, seg.start ≤ s.start :=
        fun s hs => List.rel_of_pairwise_cons hsorted hs
      obtain ⟨hgood2, hchain2⟩ := ih seg hseg hrest hrs hsorted.of_cons
      refine ⟨?_, ?_⟩
      · intro s hs
        rcases List.mem_cons.mp hs with h | h
        · exact h ▸ hcur
        · exact hgood2 s h
      · obtain ⟨h, t, heq, hhstart, _⟩ := mergeAux_head rest seg
        rw [heq]
        rw [heq] at hchain2
        exact List.chain'_cons.mpr ⟨hhstart ▸ lt_of_not_le hle, hchain2⟩

/-- A segment surviving the parse filter is well-formed. -/
theorem parseRawSeg_good {minLength : ℚ} {rs : Option RawSeg} {seg : Seg}
    (h : parseRawSeg minLength rs = some seg) : seg.start < seg.stop := by
  rcases rs with _ | raw
  · simp [parseRawSeg] at h
  · rcases hp : raw.pair with _ | pair
    · simp [parseRawSeg, hp] at h
    · match pair with
      | [] => simp [parseRawSeg, hp] at h
      | [_] => simp [parseRawSeg, hp] at h
      | _ :: _ :: _ :: _ => simp [parseRawSeg, hp] at h
      | [s, e] =>
        simp only [parseRawSeg, hp] at h
        split_ifs at h with h1 h2
        rw [Option.some.injEq] at h
        rw [← h]
        exact lt_of_not_le h1

/-- The lexicographic sort key orders by start. -/
theorem segLe_start {a b : Seg} (h : segLe a b) : a.start ≤ b.start := by
  rcases h with h | ⟨h, _⟩
  · exact le_of_lt h
  · exact le_of_eq h

/--
C10: for every fetched response payload and every `min_length`, the
segment list produced by `get_segments` is strictly ordered and pairwise
disjoint: every segment has `end > start`, and each consecutive pair
satisfies `next.start > previous.end + 0.8` (segments with a gap of at
most 0.8s having been coalesced, the merged end being the maximum of the
merged ends). The requested categories only shape the HTTP query, not the
post-processing, so the result ranges over all payloads.
-/
theorem fetchSegments_ordered_disjoint
    (payload : Option (List (Option RawItem))) (videoId : String) (minLength : ℚ) :
    (∀ s ∈ fetchSegmentsPure payload videoId minLength, s.start < s.stop) ∧
    (fetchSegmentsPure payload videoId minLength).Chain'
      fun a b => a.stop + 4/5 < b.start := by
  have hmerge : ∀ parsed : List Seg, (∀ s ∈ parsed, s.start < s.stop) →
      (∀ s ∈ mergeSegments (parsed.insertionSort segLe), s.start < s.stop) ∧
      (mergeSegments (parsed.insertionSort segLe)).Chain'
        fun a b => a.stop + 4/5 < b.start := by
    intro parsed hgood
    have hgoodp : ∀ s ∈ parsed.insertionSort segLe, s.start < s.stop := by
      intro s hs
      exact hgood s ((List.mem_insertionSort segLe).mp hs)
    have hsortedp : (parsed.insertionSort segLe).Pairwise
        fun a b => a.start ≤ b.start :=
      (List.sorted_insertionSort segLe parsed).imp segLe_start
    rcases hsort : parsed.insertionSort segLe with _ | ⟨x, xs⟩
    · simp [hsort, mergeSegments]
    · rw [hsort] at hgoodp hsortedp
      rw [mergeSegments]
      exact mergeAux_invariant xs x
        (hgoodp x (List.mem_cons_self _ _))
        (fun s hs => hgoodp s (List.mem_cons_of_mem _ hs))
        (fun s hs => List.rel_of_pairwise_cons hsortedp hs)
        hsortedp.of_cons
  have hshape : fetchSegmentsPure payload videoId minLength = [] ∨
      ∃ rawSegments : List (Option RawSeg),
        fetchSegmentsPure payload videoId minLength =
          mergeSegments
            ((rawSegments.filterMap (parseRawSeg minLength)).insertionSort segLe) := by
    unfold fetchSegmentsPure
    split
    · exact Or.inl rfl
    · split
      · exact Or.inl rfl
      · split
        · exact Or.inl rfl
        · split
          · exact Or.inl rfl
          · exact Or.inr ⟨_, rfl⟩
  rcases hshape with heq | ⟨rawSegments, heq⟩
  · rw [heq]
    simp
  · rw [heq]
    refine hmerge _ ?_
    intro s hs
    obtain ⟨rs, _, hrs⟩ := List.mem_filterMap.mp hs
    exact parseRawSeg_good hrs

/-! ### C5 — segment skip selection and cooldown -/

/--
C5 counterexample: with an empty guard map (no guard ever recorded for
any key) and the monotonic clock at 1s, the selected segment is returned
but no seek is issued — the source reads the guard with
`self._skip_guard.get(guard_key, 0.0)`, so an absent guard behaves like
one recorded at monotonic time 0. The claim, which promises a seek
whenever no guard was recorded less than 2 seconds ago, fails here.
-/
theorem trySkipCurrent_missing_guard_counterexample :
    (trySkipCurrent (fun _ => none) 1 1 "abcdefghijk" (some 10)
        [⟨10, 20, "sponsor", "u1"⟩] (fun _ => (true, ""))).seekIssued = none ∧
    (trySkipCurrent (fun _ => none) 1 1 "abcdefghijk" (some 10)
        [⟨10, 20, "sponsor", "u1"⟩] (fun _ => (true, ""))).segment =
      some ⟨10, 20, "sponsor", "u1"⟩ ∧
    ((fun _ => none : GuardKey → Option ℚ) (1, "abcdefghijk", 20)) = none := by
  have hp : (fun seg : Seg =>
      decide (seg.start - 1/10 ≤ (10 : ℚ)) && decide ((10 : ℚ) < seg.stop - 1/20))
      (⟨10, 20, "sponsor", "u1"⟩ : Seg) = true := by
    norm_num
  have hsel : selectSegment [⟨10, 20, "sponsor", "u1"⟩] (10 : ℚ) =
      some ⟨10, 20, "sponsor", "u1"⟩ :=
    List.find?_cons_of_pos _ hp
  refine ⟨?_, ?_, rfl⟩
  · simp only [trySkipCurrent, hsel, Option.getD_none]
    norm_num
  · simp only [trySkipCurrent, hsel, Option.getD_none]
    norm_num

/--
C5 (amended): `try_skip_current` selects the first cached segment with
`start - 0.1 ≤ currentTime < end - 0.05`. Writing `last` for the guard
value recorded under key `(device, video, seg.end)` — defaulting to 0
when absent — if `now - last < 2` it issues no seek but still returns the
selected segment and leaves the guard map unchanged; otherwise it records
`guard = now` and calls seek with target
`max(seg.end + 0.08, currentTime + 0.1)`. With no segment selected, or an
unknown `currentTime`, nothing happens.
-/
theorem trySkipCurrent_spec (guard : GuardKey → Option ℚ) (now : ℚ) (dev : Nat)
    (vid : String) (ct : ℚ) (segs : List Seg) (seek : ℚ → Bool × String)
    (sel : Seg) (hsel : selectSegment segs ct = some sel) :
    (sel ∈ segs ∧ sel.start - 1/10 ≤ ct ∧ ct < sel.stop - 1/20) ∧
    (trySkipCurrent guard now dev vid (some ct) segs seek).segment = some sel ∧
    (now - ((guard (dev, vid, sel.stop)).getD 0) < 2 →
      (trySkipCurrent guard now dev vid (some ct) segs seek).seekIssued = none ∧
      (trySkipCurrent guard now dev vid (some ct) segs seek).guard = guard) ∧
    (¬ now - ((guard (dev, vid, sel.stop)).getD 0) < 2 →
      (trySkipCurrent guard now dev vid (some ct) segs seek).guard (dev, vid, sel.stop) =
        some now ∧
      (trySkipCurrent guard now dev vid (some ct) segs seek).seekIssued =
        some (max (sel.stop + 2/25) (ct + 1/10)) ∧
      (trySkipCurrent guard now dev vid (some ct) segs seek).ok =
        (seek (max (sel.stop + 2/25) (ct + 1/10))).1) ∧
    (∀ ct2 : ℚ, selectSegment segs ct2 = none →
      (trySkipCurrent guard now dev vid (some ct2) segs seek).segment = none ∧
      (trySkipCurrent guard now dev vid (some ct2) segs seek).seekIssued = none) ∧
    (trySkipCurrent guard now dev vid none segs seek).seekIssued = none := by
  have hmem := List.mem_of_find?_eq_some hsel
  have hpred := List.find?_some hsel
  simp only [Bool.and_eq_true, decide_eq_true_eq] at hpred
  refine ⟨⟨hmem, hpred.1, hpred.2⟩, ?_, ?_, ?_, ?_, rfl⟩
  · simp only [trySkipCurrent, hsel]
    by_cases hcd : now - ((guard (dev, vid, sel.stop)).getD 0) < 2
    · rw [if_pos hcd]
    · rw [if_neg hcd]
  · intro hcd
    simp only [trySkipCurrent, hsel]
    rw [if_pos hcd]
    simp
  · intro hcd
    simp only [trySkipCurrent, hsel]
    rw [if_neg hcd]
    simp
  · intro ct2 hnone
    simp [trySkipCurrent, hnone]

/-- Witness for C5: a guard recorded at time 0 and the clock at 5 is past
the cooldown, so the seek is issued at `max(20.08, 10.1) = 20.08`. -/
theorem trySkipCurrent_spec_witness :
    (trySkipCurrent (fun k => if k = (1, "abcdefghijk", (20 : ℚ)) then some 0 else none)
        5 1 "abcdefghijk" (some 10) [⟨10, 20, "sponsor", "u1"⟩]
        (fun _ => (true, ""))).seekIssued = some (502/25) := by
  have hp : (fun seg : Seg =>
      decide (seg.start - 1/10 ≤ (10 : ℚ)) && decide ((10 : ℚ) < seg.stop - 1/20))
      (⟨10, 20, "sponsor", "u1"⟩ : Seg) = true := by
    norm_num
  have hsel : selectSegment [⟨10, 20, "sponsor", "u1"⟩] (10 : ℚ) =
      some ⟨10, 20, "sponsor", "u1"⟩ :=
    List.find?_cons_of_pos _ hp
  have h := trySkipCurrent_spec
    (fun k => if k = (1, "abcdefghijk", (20 : ℚ)) then some 0 else none)
    5 1 "abcdefghijk" 10 [⟨10, 20, "sponsor", "u1"⟩] (fun _ => (true, ""))
    ⟨10, 20, "sponsor", "u1"⟩ hsel
  have h2 := (h.2.2.2.1 (by norm_num)).2.1
  rw [h2]
  norm_num

/-! ### C6 — 5-second same-video dedup -/

/-- `_drop_candidate` only touches the up-next FIFO. -/
theorem dropCandidate_lastNow (st : RunState) (d : Nat) (v : String) :
    (dropCandidate st d v).lastNowPlayingVideo = st.lastNowPlayingVideo := by
  simp only [dropCandidate]
  split_ifs <;> rfl

/-- The queue candidate loop only touches the up-next FIFO. -/
theorem queueTry_lastNow (env : ProcEnv) (mode : String) (device : Nat) :
    ∀ (cands : List String) (st : RunState) (lastError : String),
      (queueTry env mode device st lastError cands).2.2.1.lastNowPlayingVideo =
        st.lastNowPlayingVideo := by
  intro cands
  induction cands with
  | nil => intro st lastError; rfl
  | cons c rest ih =>
    intro st lastError
    simp only [queueTry]
    split_ifs <;> simp [ih, dropCandidate_lastNow]

/-- The history candidate loop only touches `last_history_choice`. -/
theorem histTry_lastNow (env : ProcEnv) (mode : String) (device : Nat) :
    ∀ (cands : List String) (st : RunState) (lastError : String),
      (histTry env mode device st lastError cands).2.2.1.lastNowPlayingVideo =
        st.lastNowPlayingVideo := by
  intro cands
  induction cands with
  | nil => intro st lastError; rfl
  | cons c rest ih =>
    intro st lastError
    simp only [histTry]
    split_ifs <;> simp [ih]

/-- `_play_safe_from_history` preserves the last-now-playing map. -/
theorem playSafeFromHistory_lastNow (env : ProcEnv) (mode : String) (device : Nat)
    (blocked : String) (st : RunState) :
    (playSafeFromHistory env mode device blocked st).state.lastNowPlayingVideo =
      st.lastNowPlayingVideo := by
  simp only [playSafeFromHistory]
  split_ifs <;>
    first
      | rfl
      | (split <;> simp [histTry_lastNow])

/-- `_play_safe_from_queue` preserves the last-now-playing map. -/
theorem playSafeFromQueue_lastNow (env : ProcEnv) (mode : String) (device : Nat)
    (blocked : String) (st : RunState) :
    (playSafeFromQueue env mode device blocked st).state.lastNowPlayingVideo =
      st.lastNowPlayingVideo := by
  simp only [playSafeFromQueue]
  split_ifs <;>
    first
      | exact playSafeFromHistory_lastNow env mode device blocked st
      | (split <;> simp [playSafeFromHistory_lastNow, queueTry_lastNow])

/-- The intervention branch preserves the last-now-playing map. -/
theorem interventionStep_lastNow (env : ProcEnv) (st : RunState) (device : Nat)
    (video : String) (decision : Decision) (cur : Bool) :
    (interventionStep env st device video decision cur).1.lastNowPlayingVideo =
      st.lastNowPlayingVideo := by
  simp only [interventionStep]
  split_ifs <;> simp [playSafeFromQueue_lastNow]

/-- A `now_playing` event that produces a persisted decision was
processed with monitoring on, a nonempty video id, and left
`(video, now)` recorded as the device's last now-playing. -/
theorem processPlayback_nowPlaying_decision_state (env : ProcEnv) (st : RunState)
    (d : Nat) (v : String)
    (h : (processPlayback env st true d v).2.decision.isSome) :
    env.monitoring = true ∧ pyStrip v ≠ "" ∧
    (processPlayback env st true d v).1.lastNowPlayingVideo d =
      some (pyStrip v, env.now) := by
  by_cases hmon : env.monitoring = true
  · by_cases hv : pyStrip v = ""
    · simp [processPlayback, hmon, hv, emptyOut] at h
    · refine ⟨hmon, hv, ?_⟩
      by_cases hdrop : nowPlayingDropped st d (pyStrip v) env.now = true
      · simp [processPlayback, hmon, hv, hdrop, emptyOut] at h
      · rw [Bool.not_eq_true] at hdrop
        simp [processPlayback, hmon, hv, hdrop, interventionStep_lastNow,
          dropCandidate_lastNow]
  · have hm2 : env.monitoring = false := Bool.not_eq_true _ |>.mp hmon
    simp [processPlayback, hm2, emptyOut] at h

/-- A `now_playing` event whose video matches the device's last
now-playing from less than 5 seconds ago is dropped: the state is
unchanged and nothing is fetched, judged, persisted, or emitted. -/
theorem processPlayback_nowPlaying_dropped (env : ProcEnv) (st : RunState)
    (d : Nat) (v : String) (t : ℚ)
    (hv : pyStrip v ≠ "")
    (hlast : st.lastNowPlayingVideo d = some (pyStrip v, t))
    (hwin : env.now - t < 5) :
    processPlayback env st true d v = (st, emptyOut) := by
  by_cases hmon : env.monitoring = true
  · have hdrop : nowPlayingDropped st d (pyStrip v) env.now = true := by
      simp [nowPlayingDropped, hlast, hwin]
    simp [processPlayback, hmon, hv, hdrop]
  · have hm2 : env.monitoring = false := Bool.not_eq_true _ |>.mp hmon
    simp [processPlayback, hm2]

/--
C6: two `now_playing` events for the same device and video id processed
less than 5 seconds apart yield at most one persisted decision: if the
first event produced a decision record, the second is dropped before
metadata fetch, judging, persistence, and emission (its output is empty
and the state unchanged); and in every case the two events persist at
most one decision between them.
-/
theorem nowPlaying_dedup_at_most_one (env1 env2 : ProcEnv) (st0 : RunState)
    (d : Nat) (v : String)
    (hwin : env2.now - env1.now < 5) :
    ((processLoungeEvent env1 st0 (.nowPlaying d v)).2.decision.isSome →
      processLoungeEvent env2 (processLoungeEvent env1 st0 (.nowPlaying d v)).1
          (.nowPlaying d v) =
        ((processLoungeEvent env1 st0 (.nowPlaying d v)).1, emptyOut)) ∧
    ((if (processLoungeEvent env1 st0 (.nowPlaying d v)).2.decision.isSome
        then 1 else 0) +
     (if (processLoungeEvent env2 (processLoungeEvent env1 st0 (.nowPlaying d v)).1
          (.nowPlaying d v)).2.decision.isSome then 1 else 0) ≤ 1) := by
  have hdropped : (processLoungeEvent env1 st0 (.nowPlaying d v)).2.decision.isSome →
      processLoungeEvent env2 (processLoungeEvent env1 st0 (.nowPlaying d v)).1
          (.nowPlaying d v) =
        ((processLoungeEvent env1 st0 (.nowPlaying d v)).1, emptyOut) := by
    intro h
    obtain ⟨hmon1, hv, hlast⟩ :=
      processPlayback_nowPlaying_decision_state env1 st0 d v h
    exact processPlayback_nowPlaying_dropped env2 _ d v env1.now hv hlast hwin
  refine ⟨hdropped, ?_⟩
  by_cases h1 : (processLoungeEvent env1 st0 (.nowPlaying d v)).2.decision.isSome
  · rw [hdropped h1]
    simp [h1, emptyOut]
  · simp only [h1, if_false]
    split_ifs <;> simp_all

/-- Witness for C6: a second identical `now_playing` one second after the
first is dropped with the state unchanged. -/
theorem nowPlaying_dedup_at_most_one_witness :
    processLoungeEvent (envProc 11)
        (processLoungeEvent (envProc 10) emptyRunState (.nowPlaying 1 "goodV000000")).1
        (.nowPlaying 1 "goodV000000") =
      ((processLoungeEvent (envProc 10) emptyRunState (.nowPlaying 1 "goodV000000")).1,
        emptyOut) := by
  exact (nowPlaying_dedup_at_most_one (envProc 10) (envProc 11) emptyRunState 1
    "goodV000000" (by norm_num [envProc])).1 (by decide)

/-! ### C7 — the 1.5-second block-intervention rate limit -/

/-- `_drop_candidate` leaves the retry markers alone. -/
theorem dropCandidate_blockRetry (st : RunState) (d : Nat) (v : String) :
    (dropCandidate st d v).blockRetryAt = st.blockRetryAt := by
  simp only [dropCandidate]
  split_ifs <;> rfl

/-- `_remember_up_next_candidate` leaves the retry markers alone. -/
theorem rememberUpNext_blockRetry (st : RunState) (d : Nat) (v : String) :
    (rememberUpNext st d v).blockRetryAt = st.blockRetryAt := by
  simp only [rememberUpNext]
  split_ifs <;> rfl

/-- A block decision for a considered-current video whose retry marker is
fresher than 1.5 seconds takes no action: no safe-fallback call, no state
change. -/
theorem interventionStep_rate_limited (env : ProcEnv) (st : RunState) (d : Nat)
    (video : String) (decision : Decision) (t : ℚ)
    (hrel : env.releaseActive = false)
    (hb : decision.verdict = "BLOCK")
    (hm : st.blockRetryAt d video = some t)
    (hf : env.now - t < 3/2) :
    interventionStep env st d video decision true = (st, "none", [], [], [], [], none) := by
  simp [interventionStep, hrel, hb, hm, hf]

/--
C7 counterexample to the claim as stated: device 1 plays a blocked video
at monotonic time 10 and a successful safe-play intervention is recorded
(`action_taken = play_safe`); the success clears every retry marker of
the device, so when an `up_next` event for the same blocked video is
processed one second later — within 1.5 seconds of the recorded attempt —
a second `play_safe` decision for the same `(device, video)` is produced
instead of `action = none`.
-/
theorem play_safe_rate_limit_counterexample :
    ((processLoungeEvent (envProc 10) stQueued
        (.nowPlaying 1 "badV0000000")).2.decision.map
        (fun row => (row.device, row.video, row.action)) =
      some (1, "badV0000000", "play_safe")) ∧
    ((processLoungeEvent (envProc 11)
        (processLoungeEvent (envProc 10) stQueued (.nowPlaying 1 "badV0000000")).1
        (.upNext 1 "badV0000000")).2.decision.map
        (fun row => (row.device, row.video, row.action)) =
      some (1, "badV0000000", "play_safe")) ∧
    (envProc 11).now - (envProc 10).now < 3/2 := by
  have hps : pyStrip "badV0000000" = "badV0000000" := by decide
  have c1 : ((10 : ℚ) - 0 < 3/2) = False := by norm_num
  have c2 : ((11 : ℚ) - 0 < 3/2) = False := by norm_num
  have c3 : ((11 : ℚ) - 10 < 4) = True := by norm_num
  have c4 : ((11 : ℚ) - 10 < 5) = True := by norm_num
  have c5 : ((10 : ℚ) < 3/2) = False := by norm_num
  have c6 : ((11 : ℚ) < 3/2) = False := by norm_num
  refine ⟨?_, ?_, by norm_num [envProc]⟩ <;>
    simp [processLoungeEvent, processPlayback, interventionStep, playSafeFromQueue,
      queueTry, playSafeFromHistory, histTry, historyAllowCandidates,
      randomizedHistoryCandidates, queueCandidateDecision, historyCandidateDecision,
      mainEventDecision, rememberUpNext, dropCandidate, nowPlayingDropped,
      envProc, stQueued, emptyRunState, emptyOut, hps, c1, c2, c3, c4, c5, c6, pyStrip]

/--
C7 (amended): when a block-intervention retry marker for this
`(device, video)` is less than 1.5 seconds old — the marker is recorded
at each attempt but cleared for the whole device by a successful
intervention — the event processor sets `action_taken = none` instead of
calling safe-fallback: the decision row carries action `none`, no play
command is attempted, and only the event video itself was judged. The
at-most-one-`play_safe`-per-1.5s guarantee therefore holds only between
attempts not separated by a successful intervention.
-/
theorem block_retry_rate_limit (env : ProcEnv) (st : RunState) (isNP : Bool)
    (d : Nat) (v : String) (t : ℚ)
    (hmon : env.monitoring = true)
    (hv : pyStrip v ≠ "")
    (hnp : isNP = true → nowPlayingDropped st d (pyStrip v) env.now = false)
    (hrel : env.releaseActive = false)
    (hblock : (mainEventDecision env.enforcementMode (env.judge (pyStrip v))).verdict =
      "BLOCK")
    (hmark : st.blockRetryAt d (pyStrip v) = some t)
    (hfresh : env.now - t < 3/2) :
    ((processPlayback env st isNP d v).2.decision.map (fun row => row.action) =
      some "none") ∧
    (processPlayback env st isNP d v).2.playAttempts = [] ∧
    (processPlayback env st isNP d v).2.judged = [pyStrip v] := by
  cases isNP with
  | true =>
    have hnd := hnp rfl
    have hstep : ∀ st2 : RunState, st2.blockRetryAt = st.blockRetryAt →
        interventionStep env st2 d (pyStrip v)
          (mainEventDecision env.enforcementMode (env.judge (pyStrip v))) true =
          (st2, "none", [], [], [], [], none) := by
      intro st2 h2
      exact interventionStep_rate_limited env st2 d (pyStrip v) _ t hrel hblock
        (by rw [h2]; exact hmark) hfresh
    refine ⟨?_, ?_, ?_⟩ <;>
      simp [processPlayback, hmon, hv, hnd, hblock, hstep,
        dropCandidate_blockRetry, emptyOut]
  | false =>
    have hstep : ∀ st2 : RunState, st2.blockRetryAt = st.blockRetryAt →
        interventionStep env st2 d (pyStrip v)
          (mainEventDecision env.enforcementMode (env.judge (pyStrip v))) true =
          (st2, "none", [], [], [], [], none) := by
      intro st2 h2
      exact interventionStep_rate_limited env st2 d (pyStrip v) _ t hrel hblock
        (by rw [h2]; exact hmark) hfresh
    refine ⟨?_, ?_, ?_⟩ <;>
      simp [processPlayback, hmon, hv, hblock, hstep,
        rememberUpNext_blockRetry, emptyOut]

/-- Witness for C7 (amended): with a 1-second-old marker the processor
records `action = none` and attempts nothing. -/
theorem block_retry_rate_limit_witness :
    ((processPlayback (envProc 11) stMarked true 1 "badV0000000").2.decision.map
      (fun row => row.action) = some "none") ∧
    (processPlayback (envProc 11) stMarked true 1 "badV0000000").2.playAttempts = [] ∧
    (processPlayback (envProc 11) stMarked true 1 "badV0000000").2.judged =
      [pyStrip "badV0000000"] := by
  exact block_retry_rate_limit (envProc 11) stMarked true 1 "badV0000000" 10
    rfl (by decide) (fun _ => by decide) rfl (by decide) (by decide)
    (by norm_num [envProc])

/-! ### C8 — safe-fallback queue pool -/

/-- When every play command succeeds, the queue candidate loop stops at
the first candidate the judge allows, and that is the only play
attempted. -/
theorem queueTry_first_allow (env : ProcEnv) (mode : String) (device : Nat)
    (hplay : ∀ c, (env.play c).1 = true) :
    ∀ (cands : List String) (st : RunState) (lastErr c : String),
      cands.find? (fun x =>
        (queueCandidateDecision mode (env.judge x)).verdict == "ALLOW") = some c →
      (queueTry env mode device st lastErr cands).1 = some c ∧
      (queueTry env mode device st lastErr cands).2.2.2.2.2 = [c] := by
  intro cands
  induction cands with
  | nil => intro st lastErr c h; simp at h
  | cons x rest ih =>
    intro st lastErr c h
    by_cases hx : (queueCandidateDecision mode (env.judge x)).verdict = "ALLOW"
    · rw [List.find?_cons_of_pos _ (by simp [hx])] at h
      rw [Option.some.injEq] at h
      subst h
      simp only [queueTry]
      rw [if_neg (by simp [hx]), if_pos (by simp [hplay x])]
      exact ⟨rfl, rfl⟩
    · rw [List.find?_cons_of_neg _ (by simp [hx])] at h
      obtain ⟨h1, h2⟩ := ih st lastErr c h
      simp only [queueTry]
      rw [if_pos (by simp [hx])]
      exact ⟨h1, h2⟩

/--
C8 counterexample to the claim as stated: a FIFO of 13 distinct
candidates in which only the most recent (`v130000000a`) is allowed by
the judge. Under the claim — the 12 most recent remaining candidates are
considered and the first ALLOW is played — the safe-fallback would play
it; the code considers `queue[:12]`, the 12 *oldest* remaining
candidates, finds no ALLOW among them, attempts no play, and fails over
to the (empty) history pool.
-/
theorem play_safe_queue_recency_counterexample :
    (playSafeFromQueue envAllowLastOnly "blocklist" 1 "blockedvid0" stThirteen).ok =
      false ∧
    (playSafeFromQueue envAllowLastOnly "blocklist" 1 "blockedvid0"
      stThirteen).playAttempts = [] ∧
    ((stThirteen.upNextCandidates 1).filter
        (fun v => v ≠ "" && v ≠ "blockedvid0")).getLast? = some "v130000000a" ∧
    (queueCandidateDecision "blocklist"
      (envAllowLastOnly.judge "v130000000a")).verdict = "ALLOW" ∧
    (envAllowLastOnly.play "v130000000a").1 = true := by
  refine ⟨by decide, by decide, by decide, by decide, rfl⟩

/--
C8 (amended): the per-device up-next FIFO holds at most 30 deduplicated
ids with the most recent last; the safe-fallback queue pool drops the
blocked id (and empty ids) and considers up to the first 12 remaining
candidates in FIFO order — the 12 *oldest*, not the most recent — trying
them in order and issuing playVideo for the first candidate the judge
ALLOWs (shown here with every play command succeeding).
-/
theorem play_safe_queue_pool_spec :
    (∀ (st : RunState) (d : Nat) (v : String), v ≠ "" →
      ((rememberUpNext st d v).upNextCandidates d).length ≤ 30 ∧
      ((rememberUpNext st d v).upNextCandidates d).getLast? = some v ∧
      ((st.upNextCandidates d).Nodup →
        ((rememberUpNext st d v).upNextCandidates d).Nodup)) ∧
    (∀ (env : ProcEnv) (mode : String) (d : Nat) (blocked : String) (st : RunState)
      (c : String),
      (∀ x, (env.play x).1 = true) →
      (((st.upNextCandidates d).filter
          (fun v => v ≠ "" && v ≠ blocked)).take 12).find?
        (fun x => (queueCandidateDecision mode (env.judge x)).verdict == "ALLOW") =
        some c →
      (playSafeFromQueue env mode d blocked st).ok = true ∧
      (playSafeFromQueue env mode d blocked st).safeId = c ∧
      (playSafeFromQueue env mode d blocked st).playAttempts = [c]) := by
  constructor
  · intro st d v hv
    simp only [rememberUpNext, if_neg hv]
    refine ⟨?_, ?_, ?_⟩
    · rw [if_pos trivial]
      split_ifs with hlen
      · rw [List.length_drop]
        omega
      · omega
    · rw [if_pos trivial]
      split_ifs with hlen
      · rw [List.drop_append_of_le_length (by
          simp only [List.length_append, List.length_singleton] at hlen ⊢
          omega)]
        rw [List.getLast?_concat]
      · rw [List.getLast?_concat]
    · intro hnd
      rw [if_pos trivial]
      have hqnd : (((st.upNextCandidates d).filter (· ≠ v)) ++ [v]).Nodup := by
        rw [List.nodup_append]
        refine ⟨hnd.filter _, List.nodup_singleton v, ?_⟩
        intro x hx hmem
        simp only [List.mem_singleton] at hmem
        subst hmem
        have := List.of_mem_filter hx
        simp at this
      split_ifs
      · exact hqnd.sublist (List.drop_sublist _ _)
      · exact hqnd
  · intro env mode d blocked st c hplay hfind
    have hqne : (st.upNextCandidates d).filter (fun v => v ≠ "" && v ≠ blocked) ≠ [] := by
      intro hnil
      rw [hnil] at hfind
      simp at hfind
    obtain ⟨h1, h2⟩ := queueTry_first_allow env mode d hplay _ st "" c hfind
    simp only [playSafeFromQueue, if_neg hqne]
    rw [h1]
    exact ⟨rfl, rfl, h2⟩

/-- Witness for C8 (amended): remembering a fresh id appends it last, and
the queue pool plays the first allowed candidate `safeA0000001`. -/
theorem play_safe_queue_pool_spec_witness :
    (((rememberUpNext emptyRunState 1 "newV0000001").upNextCandidates 1).length ≤ 30 ∧
     ((rememberUpNext emptyRunState 1 "newV0000001").upNextCandidates 1).getLast? =
       some "newV0000001" ∧
     ((emptyRunState.upNextCandidates 1).Nodup →
       ((rememberUpNext emptyRunState 1 "newV0000001").upNextCandidates 1).Nodup)) ∧
    ((playSafeFromQueue (envProc 10) "blocklist" 1 "badV0000000" stQueued).ok = true ∧
     (playSafeFromQueue (envProc 10) "blocklist" 1 "badV0000000" stQueued).safeId =
       "safeA0000001" ∧
     (playSafeFromQueue (envProc 10) "blocklist" 1 "badV0000000" stQueued).playAttempts =
       ["safeA0000001"]) := by
  constructor
  · exact play_safe_queue_pool_spec.1 emptyRunState 1 "newV0000001" (by decide)
  · exact play_safe_queue_pool_spec.2 (envProc 10) "blocklist" 1 "badV0000000" stQueued
      "safeA0000001" (fun x => rfl) (by decide)

end Sentinel
